import Mathlib

/-!
Verification of the esd_backend milestone/progress workflow and exam-slot
distribution engine.  Each definition is a shallow embedding of one handler or
schema of the source repository (file and symbol named in its doc comment);
machine times are integers (milliseconds or minutes), Mongo ObjectIds are
naturals, and each handler is a pure function from the fetched document state
and the request to the updated state and the JSON response it sends.
-/

namespace EsdBackend

/-- Milestone lifecycle status (models the `status` enum of milestoneSchema). -/
inductive MStatus
  | draft
  | published
deriving DecidableEq, Repr

/-- Milestone type (models the `type` enum of milestoneSchema). -/
inductive MType
  | assignment
  | quiz
  | exam
  | project
  | task
  | other
deriving DecidableEq, Repr

/-- StudentMilestone status (models the `status` enum of studentMilestoneSchema). -/
inductive SMStatus
  | notStarted
  | inProgress
  | submitted
  | completed
  | failed
deriving DecidableEq, Repr

/-- Question type (models the `type` enum of questionSchema). -/
inductive QType
  | multipleChoice
  | trueFalse
  | shortAnswer
  | essay
deriving DecidableEq, Repr

/-- Embedded question of a quiz/exam milestone (questionSchema).  Answer values
are abstracted to naturals; an absent `correctAnswer` is `none`. -/
structure Question where
  qid : Nat
  qtype : QType
  correctAnswer : Option Nat
  points : Int
deriving DecidableEq, Repr

/-- Milestone document fields used by the student-progress handlers
(milestoneSchema).  `duration` is in minutes and optional, and dates are epoch
milliseconds. -/
structure MilestoneQ where
  mid : Nat
  chainId : Nat
  mtype : MType
  mStatus : MStatus
  startDate : Int
  endDate : Int
  duration : Option Int
  questions : List Question
deriving DecidableEq, Repr

/-- One uploaded file of a submission (the object pushed to `uploadedFiles` in
submitAssignment; the storage URL is carried through from the upload result). -/
structure FileRef where
  filename : String
  url : String
  size : Int
  uploadedAt : Int
deriving DecidableEq, Repr

/-- One submission entry (the `submissions` subdocument of
studentMilestoneSchema). -/
structure SubmissionEntry where
  files : List FileRef
  text : Option String
  submittedAt : Int
deriving DecidableEq, Repr

/-- One graded answer (the `answers` subdocument of studentMilestoneSchema). -/
structure AnswerRec where
  questionId : Nat
  answer : Option Nat
  isCorrect : Bool
  points : Int
deriving DecidableEq, Repr

/-- StudentMilestone document (studentMilestoneSchema).  Optional schema fields
are `Option`; `percentage` is the rational value `(score / maxScore) * 100`
written by the handlers. -/
structure SMRecord where
  rid : Nat
  student : Nat
  milestone : Nat
  chainId : Nat
  smStatus : SMStatus
  submissions : List SubmissionEntry
  answers : List AnswerRec
  quizStartedAt : Option Int
  quizSubmittedAt : Option Int
  score : Option Int
  maxScore : Option Int
  percentage : Option Rat
  grade : Option String
  feedback : Option String
  gradedBy : Option Nat
  gradedAt : Option Int
  autoGradedScore : Option Int
  autoGradedPercentage : Option Rat
  startedAt : Option Int
  completedAt : Option Int
  attempts : Int
deriving DecidableEq, Repr

/-- The database slice the student-milestone handlers touch: the milestone
collection (read-only here) and the StudentMilestone collection.  `nextId`
supplies the ObjectId of the next created record. -/
structure SMDB where
  milestones : List MilestoneQ
  records : List SMRecord
  nextId : Nat
deriving DecidableEq, Repr

/-- Predicate for `StudentMilestone.findOne({student, milestone})`. -/
def pairMatch (user mid : Nat) (r : SMRecord) : Bool :=
  decide (r.student = user ∧ r.milestone = mid)

/-- Lookup of the StudentMilestone for a (student, milestone) pair. -/
def findRecord (db : SMDB) (user mid : Nat) : Option SMRecord :=
  db.records.find? (pairMatch user mid)

/-- Lookup of a milestone by id (`Milestone.findById`). -/
def findMilestone (db : SMDB) (mid : Nat) : Option MilestoneQ :=
  db.milestones.find? (fun m => decide (m.mid = mid))

/-- Persisting a mutated StudentMilestone document (`studentMilestone.save()`):
the stored copy with the same ObjectId is replaced. -/
def saveRecord (db : SMDB) (r : SMRecord) : SMDB :=
  { db with records := db.records.map (fun x => if x.rid = r.rid then r else x) }

/-- Response of startMilestone (studentMilestoneController.startMilestone). -/
inductive StartResult
  | notFoundOrUnpublished
  | alreadyStarted (r : SMRecord)
  | started (r : SMRecord)
deriving DecidableEq, Repr

/-- startMilestone from src/controllers/studentMilestoneController.js: 404 when
the milestone is absent or unpublished; if a record for the pair already exists
it is returned unchanged; otherwise a record is created in `in-progress` with
`attempts` 1, stamping `quizStartedAt` for quiz/exam types.  `mkStartRecord` is the document built by
`StudentMilestone.create` there, including the follow-up save that stamps
`quizStartedAt` when the milestone type is quiz or exam. -/
def mkStartRecord (db : SMDB) (user milestoneId : Nat) (m : MilestoneQ)
    (now : Int) : SMRecord :=
  let base : SMRecord :=
    { rid := db.nextId, student := user, milestone := milestoneId
    , chainId := m.chainId, smStatus := .inProgress
    , submissions := [], answers := []
    , quizStartedAt := none, quizSubmittedAt := none
    , score := none, maxScore := none, percentage := none
    , grade := none, feedback := none, gradedBy := none, gradedAt := none
    , autoGradedScore := none, autoGradedPercentage := none
    , startedAt := some now, completedAt := none, attempts := 1 }
  if m.mtype = .quiz ∨ m.mtype = .exam
  then { base with quizStartedAt := some now } else base

/-- startMilestone handler body (see `mkStartRecord` for the created
document). -/
def startMilestone (db : SMDB) (user milestoneId : Nat) (now : Int) :
    SMDB × StartResult :=
  match findMilestone db milestoneId with
  | none => (db, .notFoundOrUnpublished)
  | some m =>
    if m.mStatus ≠ .published then (db, .notFoundOrUnpublished)
    else
      match findRecord db user milestoneId with
      | some r => (db, .alreadyStarted r)
      | none =>
        let r0 := mkStartRecord db user milestoneId m now
        ({ db with records := db.records ++ [r0], nextId := db.nextId + 1 },
         .started r0)

/-- Response of submitAssignment. -/
inductive SubmitResult
  | invalidType
  | submitted (r : SMRecord)
deriving DecidableEq, Repr

/-- An incoming upload in submitAssignment (one element of `req.files` together
with the URL its storage upload returns). -/
structure FileIn where
  filename : String
  url : String
  size : Int
deriving DecidableEq, Repr

/-- submitAssignment from src/controllers/studentMilestoneController.js: 400
unless the milestone exists and has type `assignment` (its published status and
date window are never consulted); creates the StudentMilestone on the fly when
the pair has none; appends the submission entry and sets status `submitted`. -/
def submitAssignment (db : SMDB) (user milestoneId : Nat) (files : List FileIn)
    (text : Option String) (now : Int) : SMDB × SubmitResult :=
  match findMilestone db milestoneId with
  | none => (db, .invalidType)
  | some m =>
    if m.mtype ≠ .assignment then (db, .invalidType)
    else
      let uploaded : List FileRef := files.map (fun f =>
        { filename := f.filename, url := f.url, size := f.size, uploadedAt := now })
      let entry : SubmissionEntry := { files := uploaded, text := text, submittedAt := now }
      match findRecord db user milestoneId with
      | some r =>
        let r' := { r with
          submissions := r.submissions ++ [entry], smStatus := .submitted }
        (saveRecord db r', .submitted r')
      | none =>
        let base : SMRecord :=
          { rid := db.nextId, student := user, milestone := milestoneId
          , chainId := m.chainId, smStatus := .inProgress
          , submissions := [], answers := []
          , quizStartedAt := none, quizSubmittedAt := none
          , score := none, maxScore := none, percentage := none
          , grade := none, feedback := none, gradedBy := none, gradedAt := none
          , autoGradedScore := none, autoGradedPercentage := none
          , startedAt := some now, completedAt := none, attempts := 0 }
        let r' := { base with submissions := [entry], smStatus := .submitted }
        ({ db with records := db.records ++ [r'], nextId := db.nextId + 1 },
         .submitted r')

/-- One answer of the submitQuizAnswers request body. -/
structure AnswerIn where
  questionId : Nat
  answer : Option Nat
deriving DecidableEq, Repr

/-- Accumulator of the auto-grading loop of submitQuizAnswers. -/
structure GradeAcc where
  totalScore : Int
  maxScore : Int
  graded : List AnswerRec
deriving DecidableEq, Repr

/-- One iteration of the auto-grading loop: answers whose question id matches no
embedded question are skipped; `maxScore` counts every matched question; only
multiple-choice and true-false questions are compared against `correctAnswer`
and scored, all other types stay at zero points. -/
def autoGradeStep (qs : List Question) (acc : GradeAcc) (a : AnswerIn) : GradeAcc :=
  match qs.find? (fun q => decide (q.qid = a.questionId)) with
  | none => acc
  | some q =>
    if q.qtype = .multipleChoice ∨ q.qtype = .trueFalse then
      let isC := decide (a.answer = q.correctAnswer)
      let pts := if isC then q.points else 0
      { totalScore := acc.totalScore + pts
      , maxScore := acc.maxScore + q.points
      , graded := acc.graded ++
          [{ questionId := a.questionId, answer := a.answer, isCorrect := isC, points := pts }] }
    else
      { totalScore := acc.totalScore
      , maxScore := acc.maxScore + q.points
      , graded := acc.graded ++
          [{ questionId := a.questionId, answer := a.answer, isCorrect := false, points := 0 }] }

/-- The whole auto-grading loop of submitQuizAnswers. -/
def autoGrade (qs : List Question) (answers : List AnswerIn) : GradeAcc :=
  answers.foldl (autoGradeStep qs) { totalScore := 0, maxScore := 0, graded := [] }

/-- Response of submitQuizAnswers. -/
inductive QuizResult
  | invalidType
  | notStarted
  | timeLimitExceeded
  | graded (r : SMRecord)
deriving DecidableEq, Repr

/-- The time-limit test of submitQuizAnswers: it runs only when
`milestone.duration` is truthy (present and nonzero), and compares the elapsed
wall-clock minutes `(now - quizStartedAt) / 60000` strictly against the
duration; an absent `quizStartedAt` yields NaN in the source, whose comparison
is false. -/
def quizTimedOut (duration : Option Int) (quizStartedAt : Option Int) (now : Int) : Bool :=
  match duration with
  | none => false
  | some d =>
    if d = 0 then false
    else
      match quizStartedAt with
      | none => false
      | some ts => decide (now - ts > d * 60000)

/-- submitQuizAnswers from src/controllers/studentMilestoneController.js: 400
unless the milestone is a quiz/exam; 400 when no record exists; on timeout the
record is marked `failed` and saved, and the call errors without grading;
otherwise the answers are auto-graded and the record is saved in status
`submitted` with score, maxScore, percentage, autoGradedScore and
autoGradedPercentage all written. -/
def submitQuizAnswers (db : SMDB) (user milestoneId : Nat) (answers : List AnswerIn)
    (now : Int) : SMDB × QuizResult :=
  match findMilestone db milestoneId with
  | none => (db, .invalidType)
  | some m =>
    if ¬(m.mtype = .quiz ∨ m.mtype = .exam) then (db, .invalidType)
    else
      match findRecord db user milestoneId with
      | none => (db, .notStarted)
      | some r =>
        if quizTimedOut m.duration r.quizStartedAt now then
          (saveRecord db { r with smStatus := .failed }, .timeLimitExceeded)
        else
          let acc := autoGrade m.questions answers
          let pct : Rat := ((acc.totalScore : Rat) / (acc.maxScore : Rat)) * 100
          let r' := { r with
            answers := acc.graded
            , quizSubmittedAt := some now
            , score := some acc.totalScore
            , maxScore := some acc.maxScore
            , percentage := some pct
            , smStatus := .submitted
            , autoGradedScore := some acc.totalScore
            , autoGradedPercentage := some pct }
          (saveRecord db r', .graded r')

/-- Response of gradeAssignment. -/
inductive GradeResult
  | notFound
  | graded (r : SMRecord)
deriving DecidableEq, Repr

/-- gradeAssignment from src/controllers/studentMilestoneController.js: looks
the record up by its own id, overwrites the grading fields, stamps the grader
and sets status `completed` — with no check of the record's previous status. -/
def gradeAssignment (db : SMDB) (submissionId : Nat) (score maxScore : Int)
    (grade feedback : String) (grader : Nat) (now : Int) : SMDB × GradeResult :=
  match db.records.find? (fun r => decide (r.rid = submissionId)) with
  | none => (db, .notFound)
  | some r =>
    let r' := { r with
      score := some score
      , maxScore := some maxScore
      , percentage := some (((score : Rat) / (maxScore : Rat)) * 100)
      , grade := some grade
      , feedback := some feedback
      , gradedBy := some grader
      , gradedAt := some now
      , smStatus := .completed
      , completedAt := some now }
    (saveRecord db r', .graded r')

/-- Status of the record carried by a submitQuizAnswers response. -/
def QuizResult.statusOf : QuizResult → Option SMStatus
  | .graded r => some r.smStatus
  | _ => none

/-- Score of the record carried by a submitQuizAnswers response. -/
def QuizResult.scoreOf : QuizResult → Option (Option Int)
  | .graded r => some r.score
  | _ => none

/-- Status of the record carried by a gradeAssignment response. -/
def GradeResult.statusOf : GradeResult → Option SMStatus
  | .graded r => some r.smStatus
  | _ => none

/-- A quiz milestone whose duration is the falsy value 0 minutes. -/
def c3Milestone : MilestoneQ :=
  { mid := 1, chainId := 2, mtype := .quiz, mStatus := .published
  , startDate := 0, endDate := 0, duration := some 0, questions := [] }

/-- An in-progress attempt at `c3Milestone` that started at time 0. -/
def c3Record : SMRecord :=
  { rid := 1, student := 7, milestone := 1, chainId := 2, smStatus := .inProgress
  , submissions := [], answers := [], quizStartedAt := some 0, quizSubmittedAt := none
  , score := none, maxScore := none, percentage := none, grade := none, feedback := none
  , gradedBy := none, gradedAt := none, autoGradedScore := none, autoGradedPercentage := none
  , startedAt := some 0, completedAt := none, attempts := 1 }

/-- Database state for the zero-duration quiz scenario. -/
def c3Db : SMDB := { milestones := [c3Milestone], records := [c3Record], nextId := 2 }

/-- The same quiz with a 30-minute duration, for the timeout theorem witness. -/
def c3WMilestone : MilestoneQ :=
  { mid := 1, chainId := 2, mtype := .quiz, mStatus := .published
  , startDate := 0, endDate := 0, duration := some 30, questions := [] }

/-- Database state for the 30-minute quiz timeout witness. -/
def c3WDb : SMDB := { milestones := [c3WMilestone], records := [c3Record], nextId := 2 }

/-- A StudentMilestone still in progress (never submitted), used to exercise
gradeAssignment on a non-submitted record. -/
def c4Record : SMRecord :=
  { rid := 3, student := 8, milestone := 1, chainId := 2, smStatus := .inProgress
  , submissions := [], answers := [], quizStartedAt := none, quizSubmittedAt := none
  , score := none, maxScore := none, percentage := none, grade := none, feedback := none
  , gradedBy := none, gradedAt := none, autoGradedScore := none, autoGradedPercentage := none
  , startedAt := some 0, completedAt := none, attempts := 1 }

/-- Database state holding only the in-progress record `c4Record`. -/
def c4Db : SMDB := { milestones := [c3Milestone], records := [c4Record], nextId := 4 }

/-- Database state with a published quiz and a started attempt, used to
exercise the successful auto-grading path. -/
def c4WDb : SMDB := { milestones := [c3WMilestone], records := [c3Record], nextId := 2 }

/-- A draft assignment milestone whose date window lies in the past. -/
def c10Milestone : MilestoneQ :=
  { mid := 4, chainId := 2, mtype := .assignment, mStatus := .draft
  , startDate := 500, endDate := 600, duration := none, questions := [] }

/-- Database state with the draft assignment milestone and no records. -/
def c10Db : SMDB := { milestones := [c10Milestone], records := [], nextId := 1 }

/-- A published quiz milestone for the startMilestone witness. -/
def c9Milestone : MilestoneQ :=
  { mid := 1, chainId := 5, mtype := .quiz, mStatus := .published
  , startDate := 0, endDate := 1000, duration := some 30, questions := [] }

/-- Database state with the published quiz milestone and no records. -/
def c9Db : SMDB := { milestones := [c9Milestone], records := [], nextId := 10 }

/-- StudentMilestone uniqueness: no two records share the (student, milestone)
pair — the unique compound index `{student: 1, milestone: 1}` of the schema. -/
def pairUnique (l : List SMRecord) : Prop :=
  List.Pairwise (fun a b => ¬(a.student = b.student ∧ a.milestone = b.milestone)) l

/-- Milestone chain lifecycle status (the `status` enum of
milestoneChainSchema). -/
inductive ChainStatus
  | editing
  | published
  | archived
deriving DecidableEq, Repr

/-- MilestoneChain document fields used by the chain handlers
(milestoneChainSchema).  Editors are (user, lastEditedAt) pairs. -/
structure Chain where
  cid : Nat
  chainStatus : ChainStatus
  publishedBy : Option Nat
  publishedAt : Option Int
  totalMilestones : Int
  publishedMilestones : Int
  editors : List (Nat × Int)
deriving DecidableEq, Repr

/-- Milestone document fields used by the chain-side handlers (milestoneSchema;
the content fields an update can patch here are the dates and the order). -/
structure MilestoneDoc where
  mid : Nat
  chainId : Nat
  mdStatus : MStatus
  startDate : Int
  endDate : Int
  order : Int
  publishedBy : Option Nat
  publishedAt : Option Int
  lastEditedBy : Option Nat
deriving DecidableEq, Repr

/-- Database slice of the chain and milestone collections.  `nextMilestoneId`
supplies the ObjectId of the next created milestone. -/
structure ChainDB where
  chains : List Chain
  milestones : List MilestoneDoc
  nextMilestoneId : Nat
deriving DecidableEq, Repr

/-- Lookup of a chain by id (`MilestoneChain.findById`). -/
def findChain (db : ChainDB) (cid : Nat) : Option Chain :=
  db.chains.find? (fun c => decide (c.cid = cid))

/-- Persisting a mutated chain document (`chain.save()`). -/
def saveChain (db : ChainDB) (c : Chain) : ChainDB :=
  { db with chains := db.chains.map (fun x => if x.cid = c.cid then c else x) }

/-- Lookup of a milestone by id (`Milestone.findById`) in the chain slice. -/
def findMilestoneDoc (db : ChainDB) (mid : Nat) : Option MilestoneDoc :=
  db.milestones.find? (fun m => decide (m.mid = mid))

/-- Persisting a mutated milestone document (`milestone.save()`). -/
def saveMilestoneDoc (db : ChainDB) (m : MilestoneDoc) : ChainDB :=
  { db with milestones := db.milestones.map (fun x => if x.mid = m.mid then m else x) }

/-- Lookup of all milestones of a chain (`Milestone.find({chainId})`). -/
def chainMilestones (db : ChainDB) (cid : Nat) : List MilestoneDoc :=
  db.milestones.filter (fun m => decide (m.chainId = cid))

/-- The editor-tracking update shared by the chain handlers: the existing entry
of the acting user gets a fresh `lastEditedAt`, otherwise the user is
appended. -/
def updateEditors (c : Chain) (user : Nat) (now : Int) : Chain :=
  match c.editors.findIdx? (fun e => decide (e.1 = user)) with
  | some i => { c with editors := c.editors.set i (user, now) }
  | none => { c with editors := c.editors ++ [(user, now)] }

/-- Response of publishChain (mentorController/milestoneChainController
publishChain). -/
inductive PublishResult
  | notFound
  | alreadyPublished
  | emptyChain
  | ok (chain : Chain)
deriving DecidableEq, Repr

/-- HTTP status sent with each publishChain outcome. -/
def PublishResult.httpStatus : PublishResult → Nat
  | .notFound => 404
  | .alreadyPublished => 400
  | .emptyChain => 400
  | .ok _ => 200

/-- Response message sent with each publishChain outcome. -/
def PublishResult.message : PublishResult → String
  | .notFound => "Chain not found"
  | .alreadyPublished => "Chain is already published"
  | .emptyChain => "Cannot publish empty chain. Please add milestones first."
  | .ok _ => "Milestone chain published successfully"

/-- publishChain: 404 when the chain is absent, 400 when already published,
400 with the empty-chain message when the chain has no milestones — in which
case nothing is written — and otherwise the chain is stamped published and all
its milestones are bulk-set to published. -/
def publishChain (db : ChainDB) (chainId user : Nat) (now : Int) :
    ChainDB × PublishResult :=
  match findChain db chainId with
  | none => (db, .notFound)
  | some chain =>
    if chain.chainStatus = .published then (db, .alreadyPublished)
    else
      let ms := chainMilestones db chainId
      if ms.length = 0 then (db, .emptyChain)
      else
        let c' := { chain with
          chainStatus := .published, publishedBy := some user,
          publishedAt := some now, publishedMilestones := (ms.length : Int) }
        let db1 := saveChain db c'
        let db2 := { db1 with
          milestones := db1.milestones.map (fun m =>
            if m.chainId = chainId then
              { m with
                mdStatus := .published, publishedBy := some user,
                publishedAt := some now }
            else m) }
        (db2, .ok c')

/-- One primitive database write of the createMilestone handler, recorded in
order so that the position of the chain revert relative to the milestone
insert is observable. -/
inductive DbEvent
  | saveChain (c : Chain)
  | insertMilestone (m : MilestoneDoc)
deriving DecidableEq, Repr

/-- Request body of createMilestone (the fields this slice tracks). -/
structure CreateMilestoneReq where
  chainId : Nat
  startDate : Int
  endDate : Int
  order : Int
deriving DecidableEq, Repr

/-- Response of createMilestone. -/
structure CreateMilestoneResp where
  httpStatus : Nat
  requiresRepublish : Bool
  chainStatus : Option ChainStatus
deriving DecidableEq, Repr

/-- createMilestone from the milestone controller (src/unnamed/part_012): when
the chain is published it is reverted to `editing` and saved first, then the
milestone is inserted as a draft, the chain total is bumped and saved, the
editor tracking is saved, and the 201 response carries `requiresRepublish` set
exactly when the chain had been published. -/
def createMilestone (db : ChainDB) (req : CreateMilestoneReq) (user : Nat)
    (now : Int) : ChainDB × CreateMilestoneResp × List DbEvent :=
  match findChain db req.chainId with
  | none =>
    (db, { httpStatus := 404, requiresRepublish := false, chainStatus := none }, [])
  | some chain =>
    let c1 := if chain.chainStatus = .published
              then { chain with chainStatus := .editing } else chain
    let db1 := if chain.chainStatus = .published then saveChain db c1 else db
    let ev1 : List DbEvent :=
      if chain.chainStatus = .published then [.saveChain c1] else []
    let m : MilestoneDoc :=
      { mid := db1.nextMilestoneId, chainId := req.chainId, mdStatus := .draft
      , startDate := req.startDate, endDate := req.endDate, order := req.order
      , publishedBy := none, publishedAt := none, lastEditedBy := none }
    let db2 := { db1 with
      milestones := db1.milestones ++ [m],
      nextMilestoneId := db1.nextMilestoneId + 1 }
    let c2 := { c1 with totalMilestones := c1.totalMilestones + 1 }
    let db3 := saveChain db2 c2
    let c3 := updateEditors c2 user now
    let db4 := saveChain db3 c3
    (db4,
     { httpStatus := 201, requiresRepublish := decide (chain.chainStatus = .published)
     , chainStatus := some c3.chainStatus },
     ev1 ++ [.insertMilestone m, .saveChain c2, .saveChain c3])

/-- Patch carried by an updateMilestone request (absent fields are `none`). -/
structure MsUpdates where
  startDate : Option Int
  endDate : Option Int
  order : Option Int
deriving DecidableEq, Repr

/-- Merge of `Object.assign(milestone, updates)` on the tracked fields. -/
def applyUpdates (m : MilestoneDoc) (u : MsUpdates) : MilestoneDoc :=
  { m with
    startDate := u.startDate.getD m.startDate,
    endDate := u.endDate.getD m.endDate,
    order := u.order.getD m.order }

/-- Response of updateMilestone. -/
inductive UpdateMsResult
  | notFound
  | serverError
  | ok (requiresRepublish : Bool) (chainStatus : ChainStatus)
deriving DecidableEq, Repr

/-- HTTP status sent with each updateMilestone outcome. -/
def UpdateMsResult.httpStatus : UpdateMsResult → Nat
  | .notFound => 404
  | .serverError => 500
  | .ok _ _ => 200

/-- Response message sent with each updateMilestone outcome. -/
def UpdateMsResult.message : UpdateMsResult → String
  | .notFound => "Milestone not found"
  | .serverError => "Failed to update milestone"
  | .ok _ _ => "Milestone updated successfully"

/-- updateMilestone from the milestone controller (src/unnamed/part_012).  On a
published parent chain the source executes `const startDate = new Date(startDate)`,
which reads the block-scoped `startDate` inside its own initializer: the
temporal-dead-zone ReferenceError is thrown before any write, so the catch
block answers 500 and nothing is mutated.  A missing parent chain likewise
throws (`chain.status` on null) into the catch block.  Only on a non-published
chain does the patch get applied and saved, followed by the editor-tracking
save, with `requiresRepublish: false` in the 200 response. -/
def updateMilestone (db : ChainDB) (milestoneId : Nat) (upd : MsUpdates)
    (user : Nat) (now : Int) : ChainDB × UpdateMsResult :=
  match findMilestoneDoc db milestoneId with
  | none => (db, .notFound)
  | some m =>
    match findChain db m.chainId with
    | none => (db, .serverError)
    | some chain =>
      if chain.chainStatus = .published then (db, .serverError)
      else
        let m' := { (applyUpdates m upd) with lastEditedBy := some user }
        let db1 := saveMilestoneDoc db m'
        let c3 := updateEditors chain user now
        let db2 := saveChain db1 c3
        (db2, .ok false chain.chainStatus)

/-- A chain in `editing` with no milestones. -/
def c2Chain : Chain :=
  { cid := 1, chainStatus := .editing, publishedBy := none, publishedAt := none
  , totalMilestones := 0, publishedMilestones := 0, editors := [(3, 0)] }

/-- Database state with the empty editing chain. -/
def c2Db : ChainDB := { chains := [c2Chain], milestones := [], nextMilestoneId := 1 }

/-- A published chain holding one published milestone. -/
def c5Chain : Chain :=
  { cid := 1, chainStatus := .published, publishedBy := some 3, publishedAt := some 50
  , totalMilestones := 1, publishedMilestones := 1, editors := [(3, 0)] }

/-- The published milestone of `c5Chain`. -/
def c5Milestone : MilestoneDoc :=
  { mid := 10, chainId := 1, mdStatus := .published, startDate := 100, endDate := 200
  , order := 1, publishedBy := some 3, publishedAt := some 50, lastEditedBy := none }

/-- Database state with the published chain and its milestone. -/
def c5Db : ChainDB :=
  { chains := [c5Chain], milestones := [c5Milestone], nextMilestoneId := 11 }

/-- An editing chain alongside the published one, for the non-published half of
the createMilestone round-trip. -/
def c5EditChain : Chain :=
  { cid := 2, chainStatus := .editing, publishedBy := none, publishedAt := none
  , totalMilestones := 0, publishedMilestones := 0, editors := [] }

/-- Database state with one published and one editing chain. -/
def c5Db2 : ChainDB :=
  { chains := [c5Chain, c5EditChain], milestones := [c5Milestone], nextMilestoneId := 11 }

/-- Slot status (the `status` enum of the slot subdocuments). -/
inductive SlotStatus
  | scheduled
  | completed
  | cancelled
  | rescheduled
deriving DecidableEq, Repr, Inhabited

/-- Exam schedule assignment mode (the `assignmentType` enum). -/
inductive AssignType
  | random
  | manual
deriving DecidableEq, Repr, Inhabited

/-- Exam schedule lifecycle status (the `status` enum of examScheduleSchema). -/
inductive SchedStatus
  | draft
  | active
  | completed
  | cancelled
deriving DecidableEq, Repr, Inhabited

/-- Slot mode (the `mode` enum of the slot subdocuments). -/
inductive Mode
  | online
  | offline
deriving DecidableEq, Repr, Inhabited

/-- Legacy flat slot of examScheduleSchema (`slots[]`).  The source stores the
time as an "HH:MM" string; here it is the parsed (hour, minute) pair, and
`scheduledDate` counts days from the schedule start date. -/
structure Slot where
  mentor : Nat
  team : Option Nat
  scheduledDate : Nat
  timeH : Nat
  timeM : Nat
  duration : Nat
  mode : Mode
  venue : Option String
  meetLink : Option String
  slotStatus : SlotStatus
deriving DecidableEq, Repr, Inhabited

/-- Per-mentor slot (`mentorSchedules[].slots`): subdocument id, assigned team,
start and end times as (hour, minute) pairs, slot number and status. -/
structure MSlot where
  sid : Nat
  team : Option Nat
  startH : Nat
  startM : Nat
  endH : Nat
  endM : Nat
  slotNumber : Nat
  slotStatus : SlotStatus
deriving DecidableEq, Repr, Inhabited

/-- Per-mentor schedule configuration (`mentorSchedules[]`). -/
structure MentorSchedule where
  mentor : Nat
  totalTeams : Int
  teamDuration : Int
  bufferTime : Int
  scheduleDate : Int
  startH : Nat
  startM : Nat
  endH : Nat
  endM : Nat
  venue : Option String
  meetLink : Option String
  mode : Mode
  slots : List MSlot
  isScheduled : Bool
deriving DecidableEq, Repr, Inhabited

/-- ExamSchedule document fields used by the distribution and assignment
handlers.  The spec's data model gives a schedule both the legacy `slots[]`
and the per-mentor `mentorSchedules[]`. -/
structure ExamSchedule where
  duration : Nat
  schedStatus : SchedStatus
  assignmentType : AssignType
  slots : List Slot
  mentorSchedules : List MentorSchedule
deriving DecidableEq, Repr, Inhabited

/-- The running-clock step of randomDistributeTeams: add duration plus the
10-minute buffer; if the new hour reaches 18 the date advances one day and the
clock resets to 09:00, otherwise the clock takes the new hour and minute. -/
def stepTime (duration day h m : Nat) : Nat × Nat × Nat :=
  let total := h * 60 + m + duration + 10
  let nh := total / 60
  let nm := total % 60
  if 18 ≤ nh then (day + 1, 9, 0) else (day, nh, nm)

/-- The slot-construction loop of randomDistributeTeams: teams are walked in
listing order, team `idx` goes to mentor `idx % mentors.length`, and the
running clock advances by `stepTime`. -/
def buildSlots (mentors : List Nat) (duration : Nat) :
    List Nat → Nat → Nat → Nat → Nat → List Slot
  | [], _, _, _, _ => []
  | t :: ts, day, h, m, idx =>
    { mentor := mentors.getD (idx % mentors.length) 0
    , team := some t, scheduledDate := day, timeH := h, timeM := m
    , duration := duration, mode := .offline, venue := none, meetLink := none
    , slotStatus := .scheduled } ::
    (buildSlots mentors duration ts (stepTime duration day h m).1
      (stepTime duration day h m).2.1 (stepTime duration day h m).2.2 (idx + 1))

/-- Response of randomDistributeTeams. -/
inductive RDResult
  | notFound
  | noMentors
  | noTeams
  | distributed
deriving DecidableEq, Repr

/-- randomDistributeTeams from src/controllers/examScheduleController.js: 404
when the schedule is absent, 400 when there are no mentors or no teams;
otherwise existing slots are cleared and replaced by the `buildSlots` loop
starting at day 0, 09:00, and the schedule becomes random/active. -/
def randomDistributeTeams (sched : Option ExamSchedule) (mentors teams : List Nat) :
    Option ExamSchedule × RDResult :=
  match sched with
  | none => (none, .notFound)
  | some s =>
    if mentors.length = 0 then (some s, .noMentors)
    else if teams.length = 0 then (some s, .noTeams)
    else
      (some { s with
          slots := buildSlots mentors s.duration teams 0 9 0 0,
          assignmentType := .random,
          schedStatus := .active }, .distributed)

/-- Request body of manualAssignTeam. -/
structure ManualAssignReq where
  mentorId : Nat
  teamId : Nat
  scheduledDate : Nat
  timeH : Nat
  timeM : Nat
  duration : Option Nat
  mode : Mode
  venue : Option String
  meetLink : Option String
deriving DecidableEq, Repr

/-- Response of manualAssignTeam. -/
inductive AssignResult
  | notFound
  | assigned
deriving DecidableEq, Repr

/-- manualAssignTeam from src/controllers/examScheduleController.js: after the
404 lookup check the slot is pushed unconditionally — the handler performs no
check of whether the team is already assigned to another slot — and the
assignment type flips to manual. -/
def manualAssignTeam (sched : Option ExamSchedule) (r : ManualAssignReq) :
    Option ExamSchedule × AssignResult :=
  match sched with
  | none => (none, .notFound)
  | some s =>
    (some { s with
        slots := s.slots ++ [{
          mentor := r.mentorId, team := some r.teamId,
          scheduledDate := r.scheduledDate, timeH := r.timeH, timeM := r.timeM,
          duration := r.duration.getD s.duration, mode := r.mode,
          venue := r.venue, meetLink := r.meetLink, slotStatus := .scheduled }],
        assignmentType := .manual }, .assigned)

/-- Request body of createMentorSchedule, with times parsed to (hour, minute)
pairs as the handler does. -/
structure MentorSchedReq where
  totalTeams : Int
  teamDuration : Int
  bufferTime : Int
  scheduleDate : Int
  startH : Nat
  startM : Nat
  endH : Nat
  endM : Nat
  venue : Option String
  meetLink : Option String
  mode : Option Mode
deriving DecidableEq, Repr

/-- Minutes needed, `(totalTeams * teamDuration) + ((totalTeams - 1) * bufferTime)`, of the
mentor-schedule handlers. -/
def totalTimeNeeded (totalTeams teamDuration bufferTime : Int) : Int :=
  totalTeams * teamDuration + (totalTeams - 1) * bufferTime

/-- Window minutes, `((endHour * 60) + endMin) - ((startHour * 60) + startMin)`, of the
mentor-schedule handlers. -/
def availableTime (sh sm eh em : Nat) : Int :=
  ((eh : Int) * 60 + em) - ((sh : Int) * 60 + sm)

/-- Response of createMentorSchedule. -/
inductive CMSResult
  | notFound
  | alreadyExists
  | timeExceeded (totalTimeNeeded availableTime : Int)
  | created (totalTimeNeeded availableTime : Int)
deriving DecidableEq, Repr

/-- HTTP status sent with each createMentorSchedule outcome. -/
def CMSResult.httpStatus : CMSResult → Nat
  | .notFound => 404
  | .alreadyExists => 400
  | .timeExceeded _ _ => 400
  | .created _ _ => 201

/-- createMentorSchedule from src/controllers/examScheduleController.js: 404
when the schedule is absent, 400 when the mentor already has a configuration,
400 carrying the computed `totalTimeNeeded` and `availableTime` when the
declared teams do not fit the declared window, and otherwise the configuration
is stored with empty slots.  (The source stores `bufferTime || 0`, which equals
the request value for every integer `bufferTime`.) -/
def createMentorSchedule (sched : Option ExamSchedule) (user : Nat)
    (r : MentorSchedReq) : Option ExamSchedule × CMSResult :=
  match sched with
  | none => (none, .notFound)
  | some s =>
    if s.mentorSchedules.any (fun ms => decide (ms.mentor = user)) then
      (some s, .alreadyExists)
    else
      let need := totalTimeNeeded r.totalTeams r.teamDuration r.bufferTime
      let avail := availableTime r.startH r.startM r.endH r.endM
      if need > avail then (some s, .timeExceeded need avail)
      else
        let ms : MentorSchedule :=
          { mentor := user, totalTeams := r.totalTeams, teamDuration := r.teamDuration
          , bufferTime := r.bufferTime, scheduleDate := r.scheduleDate
          , startH := r.startH, startM := r.startM, endH := r.endH, endM := r.endM
          , venue := r.venue, meetLink := r.meetLink, mode := r.mode.getD .offline
          , slots := [], isScheduled := false }
        (some { s with mentorSchedules := s.mentorSchedules ++ [ms] },
         .created need avail)

/-- Patch carried by an updateMentorSchedule request (absent fields `none`;
times as parsed pairs). -/
structure MentorSchedUpd where
  totalTeams : Option Int
  teamDuration : Option Int
  bufferTime : Option Int
  scheduleDate : Option Int
  startTime : Option (Nat × Nat)
  endTime : Option (Nat × Nat)
  venue : Option String
  meetLink : Option String
  mode : Option Mode
deriving DecidableEq, Repr

/-- The `totalTimeNeeded` updateMentorSchedule computes from the merge of the
request with the stored configuration. -/
def mergedNeed (ms : MentorSchedule) (r : MentorSchedUpd) : Int :=
  totalTimeNeeded (r.totalTeams.getD ms.totalTeams) (r.teamDuration.getD ms.teamDuration)
    (r.bufferTime.getD ms.bufferTime)

/-- The `availableTime` updateMentorSchedule computes from the merge of the
request with the stored configuration. -/
def mergedAvail (ms : MentorSchedule) (r : MentorSchedUpd) : Int :=
  availableTime (r.startTime.getD (ms.startH, ms.startM)).1
    (r.startTime.getD (ms.startH, ms.startM)).2
    (r.endTime.getD (ms.endH, ms.endM)).1
    (r.endTime.getD (ms.endH, ms.endM)).2

/-- Response of updateMentorSchedule. -/
inductive UMSResult
  | notFound
  | schedMissing
  | alreadyScheduled
  | timeExceeded (totalTimeNeeded availableTime : Int)
  | updated (totalTimeNeeded availableTime : Int)
deriving DecidableEq, Repr

/-- HTTP status sent with each updateMentorSchedule outcome. -/
def UMSResult.httpStatus : UMSResult → Nat
  | .notFound => 404
  | .schedMissing => 404
  | .alreadyScheduled => 400
  | .timeExceeded _ _ => 400
  | .updated _ _ => 200

/-- The merged configuration updateMentorSchedule writes back (fields present
in the request overwrite the stored ones; `venue`, `meetLink`, `mode` and
`scheduleDate` only when truthy). -/
def mergeMentorSchedule (ms : MentorSchedule) (r : MentorSchedUpd) : MentorSchedule :=
  { ms with
    totalTeams := r.totalTeams.getD ms.totalTeams,
    teamDuration := r.teamDuration.getD ms.teamDuration,
    bufferTime := r.bufferTime.getD ms.bufferTime,
    scheduleDate := r.scheduleDate.getD ms.scheduleDate,
    startH := (r.startTime.getD (ms.startH, ms.startM)).1,
    startM := (r.startTime.getD (ms.startH, ms.startM)).2,
    endH := (r.endTime.getD (ms.endH, ms.endM)).1,
    endM := (r.endTime.getD (ms.endH, ms.endM)).2,
    venue := match r.venue with | some v => some v | none => ms.venue,
    meetLink := match r.meetLink with | some v => some v | none => ms.meetLink,
    mode := r.mode.getD ms.mode }

/-- updateMentorSchedule from src/controllers/examScheduleController.js: 404
when the schedule or the mentor configuration is absent, 400 when slots are
already assigned, 400 carrying the merged `totalTimeNeeded` and `availableTime`
when the merged configuration does not fit, and otherwise the merge is
stored. -/
def updateMentorSchedule (sched : Option ExamSchedule) (user : Nat)
    (r : MentorSchedUpd) : Option ExamSchedule × UMSResult :=
  match sched with
  | none => (none, .notFound)
  | some s =>
    match s.mentorSchedules.findIdx? (fun ms => decide (ms.mentor = user)) with
    | none => (some s, .schedMissing)
    | some i =>
      let ms := s.mentorSchedules.getD i default
      if ms.isScheduled && decide (0 < ms.slots.length) then
        (some s, .alreadyScheduled)
      else
        let need := mergedNeed ms r
        let avail := mergedAvail ms r
        if need > avail then (some s, .timeExceeded need avail)
        else
          (some { s with
              mentorSchedules := s.mentorSchedules.set i (mergeMentorSchedule ms r) },
           .updated need avail)

/-- Request body of manualEditMentorSlot.  `teamId` distinguishes an absent
field (`none`, meaning `teamId !== undefined` fails and the team is untouched)
from a present null-ish value (`some none`, which clears the team via
`teamId || null`) and a present id (`some (some t)`). -/
structure EditSlotReq where
  slotId : Nat
  teamId : Option (Option Nat)
  startTime : Option (Nat × Nat)
  endTime : Option (Nat × Nat)
deriving DecidableEq, Repr

/-- Response of manualEditMentorSlot. -/
inductive EditSlotResult
  | notFound
  | schedMissing
  | slotMissing
  | teamTaken
  | updated
deriving DecidableEq, Repr

/-- The already-assigned-elsewhere check of manualEditMentorSlot: some slot of
some mentor schedule, with a different subdocument id, holds the requested
team. -/
def teamConflict (l : List MentorSchedule) (slotId t : Nat) : Bool :=
  l.any (fun ms => ms.slots.any (fun sl =>
    decide (sl.sid ≠ slotId) && sl.team.isSome && decide (sl.team = some t)))

/-- The time overwrites of manualEditMentorSlot (`if (startTime) ...`,
`if (endTime) ...`). -/
def patchTimes (sl : MSlot) (st et : Option (Nat × Nat)) : MSlot :=
  let sl2 := match st with
    | some v => { sl with startH := v.1, startM := v.2 }
    | none => sl
  match et with
  | some e => { sl2 with endH := e.1, endM := e.2 }
  | none => sl2

/-- manualEditMentorSlot from src/controllers/examScheduleController.js: finds
the acting mentor's schedule and the slot by id; when the request carries a
team id it rejects with 400 if that team already occupies any other slot of any
mentor schedule, otherwise writes the team (a null-ish value clears it); the
start and end times are overwritten when present. -/
def manualEditMentorSlot (sched : Option ExamSchedule) (user : Nat)
    (r : EditSlotReq) : Option ExamSchedule × EditSlotResult :=
  match sched with
  | none => (none, .notFound)
  | some s =>
    match s.mentorSchedules.findIdx? (fun ms => decide (ms.mentor = user)) with
    | none => (some s, .schedMissing)
    | some i =>
      let ms := s.mentorSchedules.getD i default
      match ms.slots.findIdx? (fun sl => decide (sl.sid = r.slotId)) with
      | none => (some s, .slotMissing)
      | some j =>
        let conflict :=
          match r.teamId with
          | some (some t) => teamConflict s.mentorSchedules r.slotId t
          | _ => false
        if conflict then (some s, .teamTaken)
        else
          let sl := ms.slots.getD j default
          let sl1 := match r.teamId with
            | some tv => { sl with team := tv }
            | none => sl
          (some { s with
              mentorSchedules := s.mentorSchedules.set i
                { ms with slots := ms.slots.set j (patchTimes sl1 r.startTime r.endTime) } },
           .updated)

/-- Teams assigned in the legacy flat slot list. -/
def slotTeams (l : List Slot) : List Nat := l.filterMap Slot.team

/-- Teams assigned across all per-mentor schedules. -/
def msTeams (l : List MentorSchedule) : List Nat :=
  l.flatMap (fun ms => ms.slots.filterMap MSlot.team)

/-- All team assignments of a schedule, across both slot models. -/
def allAssignedTeams (s : ExamSchedule) : List Nat :=
  slotTeams s.slots ++ msTeams s.mentorSchedules

/-- The global team-uniqueness invariant of the spec: no team id appears in
more than one slot across the whole schedule. -/
def teamUnique (s : ExamSchedule) : Prop := (allAssignedTeams s).Nodup

/-- Subdocument ids of all per-mentor slots. -/
def msSlotIds (l : List MentorSchedule) : List Nat :=
  l.flatMap (fun ms => ms.slots.map MSlot.sid)

/-- A schedule with one legacy slot already assigned to team 1. -/
def c1Sched : ExamSchedule :=
  { duration := 30, schedStatus := .active, assignmentType := .manual
  , slots := [{ mentor := 5, team := some 1, scheduledDate := 0, timeH := 9, timeM := 0
              , duration := 30, mode := .offline, venue := none, meetLink := none
              , slotStatus := .scheduled }]
  , mentorSchedules := [] }

/-- A manual assignment request for the already-assigned team 1. -/
def c1Req : ManualAssignReq :=
  { mentorId := 6, teamId := 1, scheduledDate := 0, timeH := 10, timeM := 0
  , duration := none, mode := .offline, venue := none, meetLink := none }

/-- A mentor schedule with two slots for the manualEditMentorSlot witness. -/
def c1MentorSched : MentorSchedule :=
  { mentor := 7, totalTeams := 2, teamDuration := 20, bufferTime := 5
  , scheduleDate := 0, startH := 9, startM := 0, endH := 10, endM := 0
  , venue := none, meetLink := none, mode := .offline
  , slots := [{ sid := 21, team := some 4, startH := 9, startM := 0, endH := 9, endM := 20
              , slotNumber := 1, slotStatus := .scheduled },
              { sid := 22, team := none, startH := 9, startM := 25, endH := 9, endM := 45
              , slotNumber := 2, slotStatus := .scheduled }]
  , isScheduled := true }

/-- A schedule carrying `c1MentorSched` and no legacy slots. -/
def c1EditSched : ExamSchedule :=
  { duration := 30, schedStatus := .active, assignmentType := .manual
  , slots := [], mentorSchedules := [c1MentorSched] }

/-- An empty exam schedule for the mentor-configuration witnesses. -/
def c7Sched : ExamSchedule :=
  { duration := 30, schedStatus := .draft, assignmentType := .manual
  , slots := [], mentorSchedules := [] }

/-- The scenario-B request: 5 teams of 20 minutes with 4 buffers of 5 minutes
against a 09:00 to 10:30 window. -/
def c7Req : MentorSchedReq :=
  { totalTeams := 5, teamDuration := 20, bufferTime := 5, scheduleDate := 0
  , startH := 9, startM := 0, endH := 10, endM := 30
  , venue := none, meetLink := none, mode := none }

/-- A stored mentor configuration that fits its window, for the update
witness. -/
def c7StoredMS : MentorSchedule :=
  { mentor := 42, totalTeams := 2, teamDuration := 20, bufferTime := 5
  , scheduleDate := 0, startH := 9, startM := 0, endH := 10, endM := 0
  , venue := none, meetLink := none, mode := .offline
  , slots := [], isScheduled := false }

/-- A schedule carrying `c7StoredMS`. -/
def c7Sched2 : ExamSchedule :=
  { duration := 30, schedStatus := .draft, assignmentType := .manual
  , slots := [], mentorSchedules := [c7StoredMS] }

/-- An update that grows the stored configuration to 5 teams without growing
the window, violating the budget. -/
def c7Upd : MentorSchedUpd :=
  { totalTeams := some 5, teamDuration := none, bufferTime := none
  , scheduleDate := none, startTime := none, endTime := some (10, 30)
  , venue := none, meetLink := none, mode := none }

/-- An edit request assigning team 5 to the empty second slot. -/
def c1EditReq : EditSlotReq :=
  { slotId := 22, teamId := some (some 5), startTime := none, endTime := none }

/-- The schedule `c1EditSched` after the edit: slot 22 now holds team 5. -/
def c1EditResult : ExamSchedule :=
  { duration := 30, schedStatus := .active, assignmentType := .manual
  , slots := []
  , mentorSchedules := [{ c1MentorSched with
      slots := [{ sid := 21, team := some 4, startH := 9, startM := 0, endH := 9, endM := 20
                , slotNumber := 1, slotStatus := .scheduled },
                { sid := 22, team := some 5, startH := 9, startM := 25, endH := 9, endM := 45
                , slotNumber := 2, slotStatus := .scheduled }] }] }

/-- The relation between consecutive slots produced by the distribution loop:
either the running clock plus duration and buffer stays before 18:00 and the
next slot is later the same day by exactly that step, or the next slot is at
09:00 one day later. -/
def timeRel (duration : Nat) (a b : Slot) : Prop :=
  if a.timeH * 60 + a.timeM + duration + 10 < 18 * 60 then
    b.scheduledDate = a.scheduledDate ∧
    b.timeH * 60 + b.timeM = a.timeH * 60 + a.timeM + duration + 10
  else
    b.scheduledDate = a.scheduledDate + 1 ∧ b.timeH = 9 ∧ b.timeM = 0

theorem find?_map_replace (l : List Chain) (cid : Nat) (c old : Chain)
    (hcid : c.cid = cid)
    (h : l.find? (fun x => decide (x.cid = cid)) = some old) :
    (l.map (fun x => if x.cid = c.cid then c else x)).find?
      (fun x => decide (x.cid = cid)) = some c := by
  induction l with
  | nil => exact absurd h (by simp)
  | cons a as ih =>
    simp only [List.map_cons]
    by_cases ha : a.cid = cid
    · rw [if_pos (by rw [hcid]; exact ha)]
      simp [List.find?, hcid]
    · rw [if_neg (by rw [hcid]; exact ha)]
      have h' : as.find? (fun x => decide (x.cid = cid)) = some old := by
        simpa [List.find?, ha] using h
      simpa [List.find?, ha] using ih h'

theorem startMilestone_milestones_unchanged (db : SMDB) (u mid : Nat) (t : Int) :
    (startMilestone db u mid t).1.milestones = db.milestones := by
  unfold startMilestone
  cases hfm : findMilestone db mid with
  | none => rfl
  | some m =>
    by_cases hp : m.mStatus = .published
    · simp only [hp]
      cases hfr : findRecord db u mid <;> simp
    · simp [hp]

theorem mkStartRecord_student (db : SMDB) (u mid : Nat) (m : MilestoneQ) (t : Int) :
    (mkStartRecord db u mid m t).student = u := by
  simp only [mkStartRecord]
  split <;> rfl

theorem mkStartRecord_milestone (db : SMDB) (u mid : Nat) (m : MilestoneQ) (t : Int) :
    (mkStartRecord db u mid m t).milestone = mid := by
  simp only [mkStartRecord]
  split <;> rfl

theorem startMilestone_pairUnique (db : SMDB) (u mid : Nat) (t : Int)
    (h : pairUnique db.records) : pairUnique (startMilestone db u mid t).1.records := by
  unfold startMilestone
  cases hfm : findMilestone db mid with
  | none => exact h
  | some m =>
    dsimp only
    by_cases hp : m.mStatus = .published
    · simp only [hp, ne_eq, not_true_eq_false, if_false]
      cases hfr : findRecord db u mid with
      | some r => exact h
      | none =>
        refine List.pairwise_append.mpr ⟨h, List.pairwise_singleton _ _, ?_⟩
        intro a ha b hb
        have hb' : b = mkStartRecord db u mid m t := by
          simpa using hb
        have := List.find?_eq_none.mp hfr a ha
        simp only [pairMatch, decide_eq_true_eq] at this
        intro hcontra
        rw [hb', mkStartRecord_student, mkStartRecord_milestone] at hcontra
        exact this hcontra
    · rw [if_pos hp]
      exact h

theorem startMilestone_existing (db : SMDB) (u mid : Nat) (t : Int) (m : MilestoneQ)
    (r : SMRecord) (hm : findMilestone db mid = some m) (hpub : m.mStatus = .published)
    (hr : findRecord db u mid = some r) :
    startMilestone db u mid t = (db, .alreadyStarted r) := by
  unfold startMilestone
  rw [hm]
  simp only [hpub, ne_eq, not_true_eq_false, if_false]
  rw [hr]

/-- C9: startMilestone is idempotent: the (student, milestone) uniqueness
invariant is preserved by every call, a call finding an existing record returns
it with the database unchanged, and calling startMilestone a second time after
a creating call returns the created record unchanged instead of creating or
modifying anything. -/
theorem c9_startMilestone_idempotent
    (db : SMDB) (u mid : Nat) (t1 t2 : Int) (m : MilestoneQ)
    (hm : findMilestone db mid = some m)
    (hpub : m.mStatus = .published) :
    (∀ (db' : SMDB) (u' mid' : Nat) (t' : Int), pairUnique db'.records →
        pairUnique (startMilestone db' u' mid' t').1.records) ∧
    (∀ r, findRecord db u mid = some r →
        startMilestone db u mid t2 = (db, .alreadyStarted r)) ∧
    (findRecord db u mid = none →
      ∃ r0, (startMilestone db u mid t1).2 = .started r0 ∧
        (startMilestone db u mid t1).1.records = db.records ++ [r0] ∧
        startMilestone (startMilestone db u mid t1).1 u mid t2 =
          ((startMilestone db u mid t1).1, .alreadyStarted r0)) := by
  refine ⟨fun db' u' mid' t' h => startMilestone_pairUnique db' u' mid' t' h,
    fun r hr => startMilestone_existing db u mid t2 m r hm hpub hr, fun hnone => ?_⟩
  have hshape : startMilestone db u mid t1 =
      ({ db with
          records := db.records ++ [mkStartRecord db u mid m t1],
          nextId := db.nextId + 1 }, .started (mkStartRecord db u mid m t1)) := by
    unfold startMilestone
    rw [hm]
    simp only [hpub, ne_eq, not_true_eq_false, if_false]
    rw [hnone]
  refine ⟨mkStartRecord db u mid m t1, ?_, ?_, ?_⟩
  · rw [hshape]
  · rw [hshape]
  · rw [hshape]
    apply startMilestone_existing _ _ _ _ m
    · exact hm
    · exact hpub
    · show List.find? _ (db.records ++ [mkStartRecord db u mid m t1]) = _
      rw [List.find?_append]
      have hn : List.find? (pairMatch u mid) db.records = none := hnone
      rw [hn]
      have hpm : pairMatch u mid (mkStartRecord db u mid m t1) = true := by
        simp only [pairMatch, decide_eq_true_eq]
        exact ⟨mkStartRecord_student db u mid m t1, mkStartRecord_milestone db u mid m t1⟩
      simp [List.find?, hpm]

/-- Witness for c9 at a concrete database: a published quiz milestone with no
prior record; both hypotheses hold by computation. -/
theorem c9_startMilestone_idempotent_witness :
    (∀ (db' : SMDB) (u' mid' : Nat) (t' : Int), pairUnique db'.records →
        pairUnique (startMilestone db' u' mid' t').1.records) ∧
    (∀ r, findRecord c9Db 7 1 = some r →
        startMilestone c9Db 7 1 200 = (c9Db, .alreadyStarted r)) ∧
    (findRecord c9Db 7 1 = none →
      ∃ r0, (startMilestone c9Db 7 1 100).2 = .started r0 ∧
        (startMilestone c9Db 7 1 100).1.records = c9Db.records ++ [r0] ∧
        startMilestone (startMilestone c9Db 7 1 100).1 7 1 200 =
          ((startMilestone c9Db 7 1 100).1, .alreadyStarted r0)) :=
  c9_startMilestone_idempotent c9Db 7 1 100 200 c9Milestone (by decide) rfl

/-- C3 counterexample: for a quiz whose `duration` is 0 minutes — a falsy value
in the guard `if (milestone.duration)` — a submission 10 minutes after
`quizStartedAt` strictly exceeds the duration, yet submitQuizAnswers does not
mark the record failed: it auto-grades and stores status `submitted` with the
score fields set. -/
theorem c3_counterexample :
    ((600000 : Int) - 0) > 0 * 60000 ∧
    (submitQuizAnswers c3Db 7 1 [] 600000).2.statusOf = some SMStatus.submitted ∧
    (submitQuizAnswers c3Db 7 1 [] 600000).2.scoreOf = some (some 0) := by
  refine ⟨by decide, ?_, ?_⟩ <;> rfl

/-- C3 amended: for every quiz/exam submission where `milestone.duration` is
present and nonzero and the elapsed wall-clock time strictly exceeds it, the
record is marked `failed` and saved, the call returns the time-limit error
without grading, and score, maxScore and percentage are exactly as before. -/
theorem c3_amended_timeout_fails
    (db : SMDB) (u mid : Nat) (answers : List AnswerIn) (now : Int)
    (m : MilestoneQ) (r : SMRecord) (d ts : Int)
    (hm : findMilestone db mid = some m)
    (hq : m.mtype = .quiz ∨ m.mtype = .exam)
    (hd : m.duration = some d) (hd0 : d ≠ 0)
    (hr : findRecord db u mid = some r)
    (hts : r.quizStartedAt = some ts)
    (hlate : now - ts > d * 60000) :
    submitQuizAnswers db u mid answers now =
      (saveRecord db { r with smStatus := .failed }, .timeLimitExceeded) ∧
    ({ r with smStatus := SMStatus.failed }).score = r.score ∧
    ({ r with smStatus := SMStatus.failed }).maxScore = r.maxScore ∧
    ({ r with smStatus := SMStatus.failed }).percentage = r.percentage := by
  have htimed : quizTimedOut m.duration r.quizStartedAt now = true := by
    rw [hd, hts]
    simp only [quizTimedOut, hd0, if_false, decide_eq_true_eq]
    exact hlate
  refine ⟨?_, rfl, rfl, rfl⟩
  unfold submitQuizAnswers
  rw [hm]
  dsimp only
  rw [if_neg (not_not_intro hq), hr]
  dsimp only
  rw [if_pos htimed]

/-- Witness for c3_amended at a concrete database: a 30-minute quiz started at
time 0 and submitted one millisecond past the limit. -/
theorem c3_amended_timeout_fails_witness :
    submitQuizAnswers c3WDb 7 1 [] 1800001 =
      (saveRecord c3WDb { c3Record with smStatus := .failed }, .timeLimitExceeded) ∧
    ({ c3Record with smStatus := SMStatus.failed }).score = c3Record.score ∧
    ({ c3Record with smStatus := SMStatus.failed }).maxScore = c3Record.maxScore ∧
    ({ c3Record with smStatus := SMStatus.failed }).percentage = c3Record.percentage :=
  c3_amended_timeout_fails c3WDb 7 1 [] 1800001 c3WMilestone c3Record 30 0
    rfl (Or.inl rfl) rfl (by decide) rfl rfl (by decide)

/-- C4 counterexample: gradeAssignment completes a record that was never
`submitted`: the stored record is `in-progress`, yet grading succeeds and
leaves it `completed`, so the completed state is reachable without passing
through `submitted`. -/
theorem c4_counterexample :
    c4Record.smStatus = SMStatus.inProgress ∧
    (gradeAssignment c4Db 3 5 10 "A" "ok" 99 1000).2.statusOf
      = some SMStatus.completed := by
  refine ⟨rfl, ?_⟩
  rfl

/-- C4 amended: submitQuizAnswers always leaves a graded record in status
`submitted` (never `completed`), storing the auto-graded result in score,
maxScore and percentage as well as in the advisory autoGradedScore and
autoGradedPercentage fields; startMilestone and submitAssignment never produce
a completed record either; and gradeAssignment moves any found record to
`completed` regardless of its prior status. -/
theorem c4_amended_manual_completion
    (db : SMDB) (u mid : Nat) (answers : List AnswerIn) (now : Int)
    (db2 : SMDB) (sid : Nat) (sc mx : Int) (g f : String) (grader : Nat) (t : Int)
    (db3 : SMDB) (u3 mid3 : Nat) (files : List FileIn) (text : Option String) (t3 : Int)
    (db4 : SMDB) (u4 mid4 : Nat) (t4 : Int) :
    (∀ r', (submitQuizAnswers db u mid answers now).2 = .graded r' →
        r'.smStatus = .submitted ∧ r'.autoGradedScore = r'.score ∧
        r'.autoGradedPercentage = r'.percentage ∧ r'.score.isSome = true) ∧
    (∀ r', (submitAssignment db3 u3 mid3 files text t3).2 = .submitted r' →
        r'.smStatus = .submitted) ∧
    (∀ r', (startMilestone db4 u4 mid4 t4).2 = .started r' →
        r'.smStatus = .inProgress) ∧
    (∀ r', (gradeAssignment db2 sid sc mx g f grader t).2 = .graded r' →
        r'.smStatus = .completed) := by
  refine ⟨?_, ?_, ?_, ?_⟩
  · intro r' hg
    unfold submitQuizAnswers at hg
    cases hfm : findMilestone db mid with
    | none => rw [hfm] at hg; exact absurd hg (by simp)
    | some m =>
      rw [hfm] at hg
      dsimp only at hg
      by_cases hty : m.mtype = .quiz ∨ m.mtype = .exam
      · rw [if_neg (not_not_intro hty)] at hg
        cases hfr : findRecord db u mid with
        | none => rw [hfr] at hg; exact absurd hg (by simp)
        | some r =>
          rw [hfr] at hg
          dsimp only at hg
          by_cases htm : quizTimedOut m.duration r.quizStartedAt now = true
          · rw [if_pos htm] at hg; exact absurd hg (by simp)
          · rw [if_neg htm] at hg
            simp only [QuizResult.graded.injEq] at hg
            subst hg
            exact ⟨rfl, rfl, rfl, rfl⟩
      · rw [if_pos hty] at hg; exact absurd hg (by simp)
  · intro r' hs
    unfold submitAssignment at hs
    cases hfm : findMilestone db3 mid3 with
    | none => rw [hfm] at hs; exact absurd hs (by simp)
    | some m =>
      rw [hfm] at hs
      dsimp only at hs
      by_cases hty : m.mtype = .assignment
      · rw [if_neg (not_not_intro hty)] at hs
        cases hfr : findRecord db3 u3 mid3 with
        | none =>
          rw [hfr] at hs
          simp only [SubmitResult.submitted.injEq] at hs
          subst hs
          rfl
        | some r =>
          rw [hfr] at hs
          simp only [SubmitResult.submitted.injEq] at hs
          subst hs
          rfl
      · rw [if_pos hty] at hs; exact absurd hs (by simp)
  · intro r' hs
    unfold startMilestone at hs
    cases hfm : findMilestone db4 mid4 with
    | none => rw [hfm] at hs; exact absurd hs (by simp)
    | some m =>
      rw [hfm] at hs
      dsimp only at hs
      by_cases hp : m.mStatus = .published
      · rw [if_neg (not_not_intro hp)] at hs
        cases hfr : findRecord db4 u4 mid4 with
        | some r => rw [hfr] at hs; exact absurd hs (by simp)
        | none =>
          rw [hfr] at hs
          simp only [StartResult.started.injEq] at hs
          subst hs
          simp only [mkStartRecord]
          split <;> rfl
      · rw [if_pos hp] at hs; exact absurd hs (by simp)
  · intro r' hg
    unfold gradeAssignment at hg
    cases hfm : db2.records.find? (fun r => decide (r.rid = sid)) with
    | none => rw [hfm] at hg; exact absurd hg (by simp)
    | some r =>
      rw [hfm] at hg
      simp only [GradeResult.graded.injEq] at hg
      subst hg
      rfl

/-- Witness for c4_amended at concrete databases: a graded quiz submission, an
assignment submission, a started milestone and a manual grading call. -/
theorem c4_amended_manual_completion_witness :
    (∀ r', (submitQuizAnswers c4WDb 7 1 [] 0).2 = .graded r' →
        r'.smStatus = .submitted ∧ r'.autoGradedScore = r'.score ∧
        r'.autoGradedPercentage = r'.percentage ∧ r'.score.isSome = true) ∧
    (∀ r', (submitAssignment c10Db 9 4 [] none 50).2 = .submitted r' →
        r'.smStatus = .submitted) ∧
    (∀ r', (startMilestone c9Db 7 1 100).2 = .started r' →
        r'.smStatus = .inProgress) ∧
    (∀ r', (gradeAssignment c4Db 3 5 10 "A" "ok" 99 1000).2 = .graded r' →
        r'.smStatus = .completed) :=
  c4_amended_manual_completion c4WDb 7 1 [] 0 c4Db 3 5 10 "A" "ok" 99 1000
    c10Db 9 4 [] none 50 c9Db 7 1 100

/-- C10: submitAssignment succeeds for every assignment-type milestone at every
wall-clock time — its published status and date window are quantified over and
never consulted — the resulting record is `submitted`, and when no record
existed for the (student, milestone) pair one is created automatically. -/
theorem c10_submitAssignment_no_window_check
    (db : SMDB) (u mid : Nat) (files : List FileIn) (text : Option String) (now : Int)
    (m : MilestoneQ) (hm : findMilestone db mid = some m)
    (hty : m.mtype = .assignment) :
    ∃ r', (submitAssignment db u mid files text now).2 = .submitted r' ∧
      r'.smStatus = .submitted ∧
      (findRecord db u mid = none →
        (submitAssignment db u mid files text now).1.records = db.records ++ [r']) := by
  unfold submitAssignment
  rw [hm]
  dsimp only
  rw [if_neg (not_not_intro hty)]
  cases hfr : findRecord db u mid with
  | some r =>
    refine ⟨_, rfl, rfl, ?_⟩
    intro hc
    exact Option.noConfusion hc
  | none =>
    exact ⟨_, rfl, rfl, fun _ => rfl⟩

/-- Witness for c10 at a concrete database: a draft assignment milestone whose
date window lies wholly before the submission time, with no prior record. -/
theorem c10_submitAssignment_no_window_check_witness :
    ∃ r', (submitAssignment c10Db 9 4 [] none 5000).2 = .submitted r' ∧
      r'.smStatus = .submitted ∧
      (findRecord c10Db 9 4 = none →
        (submitAssignment c10Db 9 4 [] none 5000).1.records = c10Db.records ++ [r']) :=
  c10_submitAssignment_no_window_check c10Db 9 4 [] none 5000
    c10Milestone (by decide) rfl

theorem findChain_save (db : ChainDB) (c old : Chain) (cid : Nat)
    (hcid : c.cid = cid) (h : findChain db cid = some old) :
    findChain (saveChain db c) cid = some c :=
  find?_map_replace db.chains cid c old hcid h

theorem findChain_congr (db db' : ChainDB) (h : db.chains = db'.chains) (cid : Nat) :
    findChain db cid = findChain db' cid := by
  unfold findChain
  rw [h]

theorem updateEditors_chainStatus (c : Chain) (u : Nat) (t : Int) :
    (updateEditors c u t).chainStatus = c.chainStatus := by
  unfold updateEditors
  split <;> rfl

theorem updateEditors_cid (c : Chain) (u : Nat) (t : Int) :
    (updateEditors c u t).cid = c.cid := by
  unfold updateEditors
  split <;> rfl

/-- C2: publishing a chain in `editing` that has zero milestones fails with
HTTP 400 and the message "Cannot publish empty chain. Please add milestones
first.", and the whole database — the chain document and every milestone — is
left exactly as it was. -/
theorem c2_publishChain_empty_chain_fails
    (db : ChainDB) (chainId user : Nat) (now : Int) (chain : Chain)
    (hc : findChain db chainId = some chain)
    (hed : chain.chainStatus = .editing)
    (hms : chainMilestones db chainId = []) :
    publishChain db chainId user now = (db, .emptyChain) ∧
    PublishResult.emptyChain.httpStatus = 400 ∧
    PublishResult.emptyChain.message =
      "Cannot publish empty chain. Please add milestones first." := by
  refine ⟨?_, rfl, rfl⟩
  unfold publishChain
  rw [hc]
  dsimp only
  rw [if_neg (by rw [hed]; exact fun h => ChainStatus.noConfusion h)]
  rw [hms]
  rfl

/-- Witness for c2 at a concrete database: an editing chain with no
milestones. -/
theorem c2_publishChain_empty_chain_fails_witness :
    publishChain c2Db 1 3 100 = (c2Db, .emptyChain) ∧
    PublishResult.emptyChain.httpStatus = 400 ∧
    PublishResult.emptyChain.message =
      "Cannot publish empty chain. Please add milestones first." :=
  c2_publishChain_empty_chain_fails c2Db 1 3 100 c2Chain rfl rfl rfl

/-- C5: creating a milestone under a published chain reverts the chain to
`editing` and saves it strictly before the milestone insert (first two events
of the write trace), answers `requiresRepublish: true`, and re-fetching the
chain afterwards yields status `editing`; on a chain that is not published the
response carries `requiresRepublish: false`. -/
theorem c5_createMilestone_republish_roundtrip
    (db : ChainDB) (req : CreateMilestoneReq) (user : Nat) (now : Int) (chain : Chain)
    (hc : findChain db req.chainId = some chain) :
    (chain.chainStatus = .published →
      (createMilestone db req user now).2.1.requiresRepublish = true ∧
      (∃ c', findChain (createMilestone db req user now).1 req.chainId = some c' ∧
        c'.chainStatus = .editing) ∧
      (∃ m rest, (createMilestone db req user now).2.2 =
        DbEvent.saveChain { chain with chainStatus := .editing } ::
          DbEvent.insertMilestone m :: rest)) ∧
    (chain.chainStatus ≠ .published →
      (createMilestone db req user now).2.1.requiresRepublish = false) := by
  have hcid : chain.cid = req.chainId := by
    have := List.find?_some hc
    exact of_decide_eq_true this
  constructor
  · intro hp
    unfold createMilestone
    rw [hc]
    dsimp only
    simp only [if_pos hp]
    refine ⟨by rw [hp]; rfl, ?_, ?_⟩
    · refine ⟨updateEditors { chain with
          chainStatus := ChainStatus.editing,
          totalMilestones := chain.totalMilestones + 1 } user now, ?_, ?_⟩
      · refine findChain_save _ _ { chain with
            chainStatus := ChainStatus.editing,
            totalMilestones := chain.totalMilestones + 1 } req.chainId ?_ ?_
        · rw [updateEditors_cid]
          exact hcid
        · refine findChain_save _ _ { chain with chainStatus := ChainStatus.editing }
            req.chainId ?_ ?_
          · exact hcid
          · refine Eq.trans
              (findChain_congr _ (saveChain db { chain with chainStatus := .editing })
                rfl req.chainId) ?_
            refine findChain_save _ _ chain req.chainId ?_ ?_
            · exact hcid
            · exact hc
      · rw [updateEditors_chainStatus]
    · exact ⟨_, _, rfl⟩
  · intro hp
    unfold createMilestone
    rw [hc]
    dsimp only
    exact decide_eq_false hp

/-- Witness for c5 at concrete databases: a published chain with one milestone
and an editing chain. -/
theorem c5_createMilestone_republish_roundtrip_witness :
    ((c5Chain.chainStatus = .published →
      (createMilestone c5Db { chainId := 1, startDate := 300, endDate := 400, order := 2 } 3 60).2.1.requiresRepublish = true ∧
      (∃ c', findChain (createMilestone c5Db { chainId := 1, startDate := 300, endDate := 400, order := 2 } 3 60).1 1 = some c' ∧
        c'.chainStatus = .editing) ∧
      (∃ m rest, (createMilestone c5Db { chainId := 1, startDate := 300, endDate := 400, order := 2 } 3 60).2.2 =
        DbEvent.saveChain { c5Chain with chainStatus := .editing } ::
          DbEvent.insertMilestone m :: rest)) ∧
    (c5Chain.chainStatus ≠ .published →
      (createMilestone c5Db { chainId := 1, startDate := 300, endDate := 400, order := 2 } 3 60).2.1.requiresRepublish = false)) ∧
    ((c5EditChain.chainStatus = .published →
      (createMilestone c5Db2 { chainId := 2, startDate := 300, endDate := 400, order := 1 } 3 60).2.1.requiresRepublish = true ∧
      (∃ c', findChain (createMilestone c5Db2 { chainId := 2, startDate := 300, endDate := 400, order := 1 } 3 60).1 2 = some c' ∧
        c'.chainStatus = .editing) ∧
      (∃ m rest, (createMilestone c5Db2 { chainId := 2, startDate := 300, endDate := 400, order := 1 } 3 60).2.2 =
        DbEvent.saveChain { c5EditChain with chainStatus := .editing } ::
          DbEvent.insertMilestone m :: rest)) ∧
    (c5EditChain.chainStatus ≠ .published →
      (createMilestone c5Db2 { chainId := 2, startDate := 300, endDate := 400, order := 1 } 3 60).2.1.requiresRepublish = false)) :=
  ⟨c5_createMilestone_republish_roundtrip c5Db _ 3 60 c5Chain rfl,
   c5_createMilestone_republish_roundtrip c5Db2 _ 3 60 c5EditChain (by decide)⟩

/-- C6: in the source, every updateMilestone call whose parent chain is
published throws before any check or write — `const startDate = new Date(startDate)`
reads the const inside its own initializer — so the call answers 500 with
message "Failed to update milestone" and mutates nothing, for every requested
startDate; the 400 date-validation answer of the specification is
unreachable. -/
theorem c6_updateMilestone_published_always_500
    (db : ChainDB) (milestoneId : Nat) (upd : MsUpdates) (user : Nat) (now : Int)
    (m : MilestoneDoc) (chain : Chain)
    (hm : findMilestoneDoc db milestoneId = some m)
    (hc : findChain db m.chainId = some chain)
    (hp : chain.chainStatus = .published) :
    updateMilestone db milestoneId upd user now = (db, .serverError) ∧
    UpdateMsResult.serverError.httpStatus = 500 ∧
    UpdateMsResult.serverError.message = "Failed to update milestone" := by
  refine ⟨?_, rfl, rfl⟩
  unfold updateMilestone
  rw [hm]
  dsimp only
  rw [hc]
  dsimp only
  rw [if_pos hp]

/-- Witness for c6 at a concrete database: a published chain whose milestone is
patched with a startDate far in the future — the source still answers 500 and
leaves the database untouched. -/
theorem c6_updateMilestone_published_always_500_witness :
    updateMilestone c5Db 10 { startDate := some 999999999, endDate := none, order := none } 3 70 =
      (c5Db, .serverError) ∧
    UpdateMsResult.serverError.httpStatus = 500 ∧
    UpdateMsResult.serverError.message = "Failed to update milestone" :=
  c6_updateMilestone_published_always_500 c5Db 10
    { startDate := some 999999999, endDate := none, order := none } 3 70
    c5Milestone c5Chain rfl rfl rfl

theorem stepTime_low (dur day h m : Nat) (hc : h * 60 + m + dur + 10 < 18 * 60) :
    stepTime dur day h m =
      (day, (h * 60 + m + dur + 10) / 60, (h * 60 + m + dur + 10) % 60) := by
  unfold stepTime
  rw [if_neg]
  exact not_le.mpr ((Nat.div_lt_iff_lt_mul (by norm_num)).mpr hc)

theorem stepTime_high (dur day h m : Nat) (hc : 18 * 60 ≤ h * 60 + m + dur + 10) :
    stepTime dur day h m = (day + 1, 9, 0) := by
  unfold stepTime
  rw [if_pos]
  exact (Nat.le_div_iff_mul_le (by norm_num)).mpr hc

theorem buildSlots_length (mentors : List Nat) (dur : Nat) (ts : List Nat)
    (day h m idx : Nat) :
    (buildSlots mentors dur ts day h m idx).length = ts.length := by
  induction ts generalizing day h m idx with
  | nil => rfl
  | cons t ts ih => simp [buildSlots, ih]

theorem buildSlots_teams (mentors : List Nat) (dur : Nat) (ts : List Nat)
    (day h m idx : Nat) :
    (buildSlots mentors dur ts day h m idx).map Slot.team = ts.map some := by
  induction ts generalizing day h m idx with
  | nil => rfl
  | cons t ts ih => simp [buildSlots, ih]

theorem buildSlots_filterMap_teams (mentors : List Nat) (dur : Nat) (ts : List Nat)
    (day h m idx : Nat) :
    slotTeams (buildSlots mentors dur ts day h m idx) = ts := by
  induction ts generalizing day h m idx with
  | nil => rfl
  | cons t ts ih =>
    simp only [slotTeams, buildSlots, List.filterMap_cons]
    exact congrArg (List.cons t) (ih _ _ _ _)

theorem buildSlots_mentors (mentors : List Nat) (dur : Nat) (ts : List Nat)
    (day h m idx : Nat) :
    (buildSlots mentors dur ts day h m idx).map Slot.mentor =
      (List.range ts.length).map (fun i => mentors.getD ((idx + i) % mentors.length) 0) := by
  induction ts generalizing day h m idx with
  | nil => rfl
  | cons t ts ih =>
    have htail := ih (stepTime dur day h m).1 (stepTime dur day h m).2.1
      (stepTime dur day h m).2.2 (idx + 1)
    simp only [buildSlots, List.map_cons, htail, List.length_cons,
      List.range_succ_eq_map, List.map_map]
    congr 1
    apply List.map_congr_left
    intro i _
    simp only [Function.comp_apply]
    have harith : idx + 1 + i = idx + (i + 1) := by omega
    rw [harith]

theorem buildSlots_chain' (mentors : List Nat) (dur : Nat) (ts : List Nat)
    (day h m idx : Nat) :
    List.Chain' (timeRel dur) (buildSlots mentors dur ts day h m idx) := by
  induction ts generalizing day h m idx with
  | nil => simp [buildSlots]
  | cons t ts ih =>
    simp only [buildSlots]
    refine List.chain'_cons'.mpr ⟨?_, ih _ _ _ _⟩
    intro y hy
    cases ts with
    | nil => simp [buildSlots] at hy
    | cons t2 ts2 =>
      simp only [buildSlots, List.head?_cons, Option.mem_def, Option.some.injEq] at hy
      subst hy
      unfold timeRel
      by_cases hc : h * 60 + m + dur + 10 < 18 * 60
      · rw [if_pos hc]
        rw [stepTime_low dur day h m hc]
        refine ⟨rfl, ?_⟩
        have := Nat.div_add_mod (h * 60 + m + dur + 10) 60
        dsimp only
        omega
      · rw [if_neg hc]
        rw [stepTime_high dur day h m (by omega)]
        exact ⟨rfl, rfl, rfl⟩

/-- C8: for nonempty mentors and teams, randomDistributeTeams replaces the slot
list with exactly one slot per team in original listing order (no shuffle),
mentor of slot i being `mentors[i % mentors.length]`; the first slot is on day
0 at 09:00 and each following slot advances by duration plus 10 minutes, the
date advancing one day with a 09:00 reset exactly when the advanced clock would
reach or pass 18:00; the schedule becomes random and active. -/
theorem c8_randomDistributeTeams_spec
    (s : ExamSchedule) (mentors teams : List Nat)
    (hm : mentors ≠ []) (ht : teams ≠ []) :
    ∃ s', randomDistributeTeams (some s) mentors teams = (some s', .distributed) ∧
      s'.slots.length = teams.length ∧
      s'.slots.map Slot.team = teams.map some ∧
      s'.slots.map Slot.mentor =
        (List.range teams.length).map (fun i => mentors.getD (i % mentors.length) 0) ∧
      (∀ sl, s'.slots.head? = some sl →
        sl.scheduledDate = 0 ∧ sl.timeH = 9 ∧ sl.timeM = 0) ∧
      List.Chain' (timeRel s.duration) s'.slots ∧
      s'.assignmentType = .random ∧ s'.schedStatus = .active := by
  have hm0 : ¬ mentors.length = 0 := by
    simpa using fun h => hm (List.length_eq_zero.mp h)
  have ht0 : ¬ teams.length = 0 := by
    simpa using fun h => ht (List.length_eq_zero.mp h)
  have heq : randomDistributeTeams (some s) mentors teams =
      (some { s with
          slots := buildSlots mentors s.duration teams 0 9 0 0,
          assignmentType := .random,
          schedStatus := .active }, .distributed) := by
    unfold randomDistributeTeams
    dsimp only
    rw [if_neg hm0, if_neg ht0]
  refine ⟨_, heq, ?_, ?_, ?_, ?_, ?_, rfl, rfl⟩
  · exact buildSlots_length mentors s.duration teams 0 9 0 0
  · exact buildSlots_teams mentors s.duration teams 0 9 0 0
  · simpa using buildSlots_mentors mentors s.duration teams 0 9 0 0
  · intro sl hsl
    obtain ⟨t, ts, rfl⟩ := List.exists_cons_of_ne_nil ht
    simp only [buildSlots, List.head?_cons, Option.some.injEq] at hsl
    subst hsl
    exact ⟨rfl, rfl, rfl⟩
  · exact buildSlots_chain' mentors s.duration teams 0 9 0 0

/-- A draft schedule with the default 30-minute duration. -/
def c8Sched : ExamSchedule :=
  { duration := 30, schedStatus := .draft, assignmentType := .manual
  , slots := [], mentorSchedules := [] }

/-- Witness for c8 at the scenario-D inputs — 3 mentors and 7 teams at duration
30 — together with the concrete slot listing it produces: round-robin mentors
101, 102, 103, 101, 102, 103, 101 and times stepping by 40 minutes from
09:00. -/
theorem c8_randomDistributeTeams_spec_witness :
    (∃ s', randomDistributeTeams (some c8Sched) [101, 102, 103] [1, 2, 3, 4, 5, 6, 7]
        = (some s', .distributed) ∧
      s'.slots.length = [1, 2, 3, 4, 5, 6, 7].length ∧
      s'.slots.map Slot.team = [1, 2, 3, 4, 5, 6, 7].map some ∧
      s'.slots.map Slot.mentor =
        (List.range [1, 2, 3, 4, 5, 6, 7].length).map
          (fun i => [101, 102, 103].getD (i % [101, 102, 103].length) 0) ∧
      (∀ sl, s'.slots.head? = some sl →
        sl.scheduledDate = 0 ∧ sl.timeH = 9 ∧ sl.timeM = 0) ∧
      List.Chain' (timeRel c8Sched.duration) s'.slots ∧
      s'.assignmentType = .random ∧ s'.schedStatus = .active) ∧
    ((randomDistributeTeams (some c8Sched) [101, 102, 103] [1, 2, 3, 4, 5, 6, 7]).1.map
        (fun s' => s'.slots.map (fun sl => (sl.mentor, sl.scheduledDate, sl.timeH, sl.timeM))))
      = some [(101, 0, 9, 0), (102, 0, 9, 40), (103, 0, 10, 20), (101, 0, 11, 0),
              (102, 0, 11, 40), (103, 0, 12, 20), (101, 0, 13, 0)] :=
  ⟨c8_randomDistributeTeams_spec c8Sched [101, 102, 103] [1, 2, 3, 4, 5, 6, 7]
      (by decide) (by decide),
   by rfl⟩

/-- C7: a per-mentor configuration whose `totalTeams * teamDuration +
(totalTeams - 1) * bufferTime` exceeds the minutes of its declared window is
rejected by both createMentorSchedule and updateMentorSchedule with HTTP 400
carrying the computed `totalTimeNeeded` and `availableTime`, the schedule
unchanged; and every accepted configuration — the only way slots can later be
generated for it — satisfies `totalTimeNeeded ≤ availableTime`. -/
theorem c7_mentor_schedule_time_budget
    (s : ExamSchedule) (user : Nat) (r : MentorSchedReq)
    (s2 : ExamSchedule) (user2 : Nat) (r2 : MentorSchedUpd)
    (i2 : Nat) (ms : MentorSchedule)
    (hno : s.mentorSchedules.any (fun x => decide (x.mentor = user)) = false)
    (hex : totalTimeNeeded r.totalTeams r.teamDuration r.bufferTime >
      availableTime r.startH r.startM r.endH r.endM)
    (hidx : s2.mentorSchedules.findIdx? (fun x => decide (x.mentor = user2)) = some i2)
    (hms : s2.mentorSchedules.getD i2 default = ms)
    (hsc : (ms.isScheduled && decide (0 < ms.slots.length)) = false)
    (hex2 : mergedNeed ms r2 > mergedAvail ms r2) :
    (createMentorSchedule (some s) user r =
      (some s, .timeExceeded (totalTimeNeeded r.totalTeams r.teamDuration r.bufferTime)
        (availableTime r.startH r.startM r.endH r.endM)) ∧
      CMSResult.httpStatus (.timeExceeded
        (totalTimeNeeded r.totalTeams r.teamDuration r.bufferTime)
        (availableTime r.startH r.startM r.endH r.endM)) = 400) ∧
    (updateMentorSchedule (some s2) user2 r2 =
      (some s2, .timeExceeded (mergedNeed ms r2) (mergedAvail ms r2)) ∧
      UMSResult.httpStatus (.timeExceeded (mergedNeed ms r2) (mergedAvail ms r2)) = 400) ∧
    (∀ (s3 : ExamSchedule) (u3 : Nat) (r3 : MentorSchedReq)
        (out : Option ExamSchedule) (n a : Int),
      createMentorSchedule (some s3) u3 r3 = (out, .created n a) → n ≤ a) ∧
    (∀ (s4 : ExamSchedule) (u4 : Nat) (r4 : MentorSchedUpd)
        (out : Option ExamSchedule) (n a : Int),
      updateMentorSchedule (some s4) u4 r4 = (out, .updated n a) → n ≤ a) := by
  refine ⟨⟨?_, rfl⟩, ⟨?_, rfl⟩, ?_, ?_⟩
  · unfold createMentorSchedule
    dsimp only
    rw [if_neg (by rw [hno]; exact Bool.false_ne_true)]
    rw [if_pos hex]
  · unfold updateMentorSchedule
    dsimp only
    rw [hidx]
    dsimp only
    rw [hms]
    rw [if_neg (by rw [hsc]; exact Bool.false_ne_true)]
    rw [if_pos hex2]
  · intro s3 u3 r3 out n a hcall
    unfold createMentorSchedule at hcall
    dsimp only at hcall
    by_cases hany : s3.mentorSchedules.any (fun x => decide (x.mentor = u3)) = true
    · rw [if_pos hany] at hcall
      exact absurd hcall (by simp)
    · rw [if_neg hany] at hcall
      by_cases hgt : totalTimeNeeded r3.totalTeams r3.teamDuration r3.bufferTime >
          availableTime r3.startH r3.startM r3.endH r3.endM
      · rw [if_pos hgt] at hcall
        exact absurd hcall (by simp)
      · rw [if_neg hgt] at hcall
        have : totalTimeNeeded r3.totalTeams r3.teamDuration r3.bufferTime = n ∧
            availableTime r3.startH r3.startM r3.endH r3.endM = a := by
          have := congrArg Prod.snd hcall
          simpa using this
        omega
  · intro s4 u4 r4 out n a hcall
    unfold updateMentorSchedule at hcall
    dsimp only at hcall
    cases hidx4 : s4.mentorSchedules.findIdx? (fun x => decide (x.mentor = u4)) with
    | none =>
      rw [hidx4] at hcall
      exact absurd hcall (by simp)
    | some i4 =>
      rw [hidx4] at hcall
      dsimp only at hcall
      by_cases hsc4 : ((s4.mentorSchedules.getD i4 default).isScheduled &&
          decide (0 < (s4.mentorSchedules.getD i4 default).slots.length)) = true
      · rw [if_pos hsc4] at hcall
        exact absurd hcall (by simp)
      · rw [if_neg hsc4] at hcall
        by_cases hgt : mergedNeed (s4.mentorSchedules.getD i4 default) r4 >
            mergedAvail (s4.mentorSchedules.getD i4 default) r4
        · rw [if_pos hgt] at hcall
          exact absurd hcall (by simp)
        · rw [if_neg hgt] at hcall
          have : mergedNeed (s4.mentorSchedules.getD i4 default) r4 = n ∧
              mergedAvail (s4.mentorSchedules.getD i4 default) r4 = a := by
            have := congrArg Prod.snd hcall
            simpa using this
          omega

/-- Witness for c7: the scenario-B request against an empty schedule, an
over-budget update against a stored configuration, and the concrete payload
values 120 and 90. -/
theorem c7_mentor_schedule_time_budget_witness :
    ((createMentorSchedule (some c7Sched) 42 c7Req =
      (some c7Sched, .timeExceeded (totalTimeNeeded c7Req.totalTeams c7Req.teamDuration c7Req.bufferTime)
        (availableTime c7Req.startH c7Req.startM c7Req.endH c7Req.endM)) ∧
      CMSResult.httpStatus (.timeExceeded
        (totalTimeNeeded c7Req.totalTeams c7Req.teamDuration c7Req.bufferTime)
        (availableTime c7Req.startH c7Req.startM c7Req.endH c7Req.endM)) = 400) ∧
    (updateMentorSchedule (some c7Sched2) 42 c7Upd =
      (some c7Sched2, .timeExceeded (mergedNeed c7StoredMS c7Upd) (mergedAvail c7StoredMS c7Upd)) ∧
      UMSResult.httpStatus (.timeExceeded (mergedNeed c7StoredMS c7Upd)
        (mergedAvail c7StoredMS c7Upd)) = 400) ∧
    (∀ (s3 : ExamSchedule) (u3 : Nat) (r3 : MentorSchedReq)
        (out : Option ExamSchedule) (n a : Int),
      createMentorSchedule (some s3) u3 r3 = (out, .created n a) → n ≤ a) ∧
    (∀ (s4 : ExamSchedule) (u4 : Nat) (r4 : MentorSchedUpd)
        (out : Option ExamSchedule) (n a : Int),
      updateMentorSchedule (some s4) u4 r4 = (out, .updated n a) → n ≤ a)) ∧
    totalTimeNeeded c7Req.totalTeams c7Req.teamDuration c7Req.bufferTime = 120 ∧
    availableTime c7Req.startH c7Req.startM c7Req.endH c7Req.endM = 90 ∧
    mergedNeed c7StoredMS c7Upd = 120 ∧ mergedAvail c7StoredMS c7Upd = 90 :=
  ⟨c7_mentor_schedule_time_budget c7Sched 42 c7Req c7Sched2 42 c7Upd 0 c7StoredMS
      (by decide) (by decide) (by decide) (by decide) (by decide) (by decide),
   by decide, by decide, by decide, by decide⟩

theorem msTeams_set (l : List MentorSchedule) (i : Nat) (hi : i < l.length)
    (msNew : MentorSchedule) :
    msTeams (l.set i msNew) =
      msTeams (l.take i) ++ msNew.slots.filterMap MSlot.team ++ msTeams (l.drop (i + 1)) := by
  rw [List.set_eq_take_append_cons_drop, if_pos hi]
  simp [msTeams, List.append_assoc]

theorem msTeams_decomp (l : List MentorSchedule) (i : Nat) (hi : i < l.length) :
    msTeams l =
      msTeams (l.take i) ++ l[i].slots.filterMap MSlot.team ++ msTeams (l.drop (i + 1)) := by
  have h0 : l.take i ++ l[i] :: l.drop (i + 1) = l := by
    rw [List.getElem_cons_drop, List.take_append_drop]
  calc msTeams l = msTeams (l.take i ++ l[i] :: l.drop (i + 1)) := by rw [h0]
    _ = _ := by
      simp only [msTeams, List.flatMap_append, List.flatMap_cons, List.append_assoc]

theorem msSlotIds_set (l : List MentorSchedule) (i : Nat) (hi : i < l.length)
    (msNew : MentorSchedule) :
    msSlotIds (l.set i msNew) =
      msSlotIds (l.take i) ++ msNew.slots.map MSlot.sid ++ msSlotIds (l.drop (i + 1)) := by
  rw [List.set_eq_take_append_cons_drop, if_pos hi]
  simp [msSlotIds, List.append_assoc]

theorem msSlotIds_decomp (l : List MentorSchedule) (i : Nat) (hi : i < l.length) :
    msSlotIds l =
      msSlotIds (l.take i) ++ l[i].slots.map MSlot.sid ++ msSlotIds (l.drop (i + 1)) := by
  have h0 : l.take i ++ l[i] :: l.drop (i + 1) = l := by
    rw [List.getElem_cons_drop, List.take_append_drop]
  calc msSlotIds l = msSlotIds (l.take i ++ l[i] :: l.drop (i + 1)) := by rw [h0]
    _ = _ := by
      simp only [msSlotIds, List.flatMap_append, List.flatMap_cons, List.append_assoc]

theorem filterMap_team_set (slots : List MSlot) (j : Nat) (hj : j < slots.length)
    (slNew : MSlot) :
    (slots.set j slNew).filterMap MSlot.team =
      (slots.take j).filterMap MSlot.team ++ slNew.team.toList ++
        (slots.drop (j + 1)).filterMap MSlot.team := by
  rw [List.set_eq_take_append_cons_drop, if_pos hj]
  rw [List.filterMap_append, List.filterMap_cons]
  cases slNew.team <;> simp [List.append_assoc]

theorem filterMap_team_decomp (slots : List MSlot) (j : Nat) (hj : j < slots.length) :
    slots.filterMap MSlot.team =
      (slots.take j).filterMap MSlot.team ++ slots[j].team.toList ++
        (slots.drop (j + 1)).filterMap MSlot.team := by
  have h0 : slots.take j ++ slots[j] :: slots.drop (j + 1) = slots := by
    rw [List.getElem_cons_drop, List.take_append_drop]
  calc slots.filterMap MSlot.team
      = (slots.take j ++ slots[j] :: slots.drop (j + 1)).filterMap MSlot.team := by rw [h0]
    _ = _ := by
      rw [List.filterMap_append, List.filterMap_cons]
      cases slots[j].team <;> simp only [Option.toList, List.append_assoc, List.nil_append,
        List.cons_append, List.singleton_append]

theorem map_sid_decomp (slots : List MSlot) (j : Nat) (hj : j < slots.length) :
    slots.map MSlot.sid =
      (slots.take j).map MSlot.sid ++ slots[j].sid :: (slots.drop (j + 1)).map MSlot.sid := by
  have h0 : slots.take j ++ slots[j] :: slots.drop (j + 1) = slots := by
    rw [List.getElem_cons_drop, List.take_append_drop]
  calc slots.map MSlot.sid
      = (slots.take j ++ slots[j] :: slots.drop (j + 1)).map MSlot.sid := by rw [h0]
    _ = _ := by simp only [List.map_append, List.map_cons]

theorem mem_msTeams {x : Nat} {L : List MentorSchedule} :
    x ∈ msTeams L ↔ ∃ ms ∈ L, ∃ sl ∈ ms.slots, sl.team = some x := by
  simp [msTeams]

theorem sid_mem_msSlotIds {sl : MSlot} {ms : MentorSchedule} {L : List MentorSchedule}
    (hms : ms ∈ L) (hsl : sl ∈ ms.slots) : sl.sid ∈ msSlotIds L := by
  simp only [msSlotIds, List.mem_flatMap]
  exact ⟨ms, hms, List.mem_map_of_mem _ hsl⟩

theorem teamConflict_false {l : List MentorSchedule} {slotId t : Nat}
    (h : teamConflict l slotId t = false) :
    ∀ ms ∈ l, ∀ sl ∈ ms.slots, sl.sid ≠ slotId → sl.team ≠ some t := by
  intro ms hms sl hsl hne hteam
  rw [teamConflict, List.any_eq_false] at h
  have h1 := h ms hms
  rw [Bool.not_eq_true, List.any_eq_false] at h1
  have h2 := h1 sl hsl
  simp only [Bool.and_eq_true, decide_eq_true_eq, Option.isSome_iff_exists] at h2
  exact h2 ⟨⟨hne, ⟨t, hteam⟩⟩, hteam⟩

theorem patchTimes_team (sl : MSlot) (st et : Option (Nat × Nat)) :
    (patchTimes sl st et).team = sl.team := by
  unfold patchTimes
  cases st <;> cases et <;> rfl

theorem nodup_middle_not_mem {α : Type} [DecidableEq α] {x : α} {X Y Z W : List α}
    (h : (X ++ (Y ++ x :: Z) ++ W).Nodup) : x ∉ X ∧ x ∉ Y ∧ x ∉ Z ∧ x ∉ W := by
  have hcount := (List.nodup_iff_count_le_one.mp h) x
  simp only [List.count_append, List.count_cons_self] at hcount
  refine ⟨?_, ?_, ?_, ?_⟩ <;>
    · rw [← List.count_eq_zero]
      omega

theorem set_slot_team_nodup
    (l : List MentorSchedule) (i j : Nat) (hi : i < l.length) (hj : j < l[i].slots.length)
    (slNew : MSlot)
    (huni : (msTeams l).Nodup)
    (hok : slNew.team = l[i].slots[j].team ∨ slNew.team = none ∨
      ∃ t, slNew.team = some t ∧
        t ∉ msTeams (l.take i) ∧ t ∉ (l[i].slots.take j).filterMap MSlot.team ∧
        t ∉ (l[i].slots.drop (j + 1)).filterMap MSlot.team ∧ t ∉ msTeams (l.drop (i + 1))) :
    (msTeams (l.set i { l[i] with slots := l[i].slots.set j slNew })).Nodup := by
  rw [msTeams_set l i hi]
  dsimp only
  rw [filterMap_team_set _ j hj]
  rw [msTeams_decomp l i hi, filterMap_team_decomp _ j hj] at huni
  rw [List.nodup_iff_count_le_one] at huni ⊢
  intro y
  have hy := huni y
  simp only [List.count_append] at hy ⊢
  rcases hok with hsame | hnone | ⟨t, ht, hA, h1, h2, hB⟩
  · rw [hsame]
    omega
  · rw [hnone]
    simp only [Option.toList, List.count_nil]
    omega
  · rw [ht]
    simp only [Option.toList]
    by_cases hyt : y = t
    · subst hyt
      have e1 : List.count y (msTeams (l.take i)) = 0 := List.count_eq_zero.mpr hA
      have e2 : List.count y ((l[i].slots.take j).filterMap MSlot.team) = 0 :=
        List.count_eq_zero.mpr h1
      have e3 : List.count y ((l[i].slots.drop (j + 1)).filterMap MSlot.team) = 0 :=
        List.count_eq_zero.mpr h2
      have e4 : List.count y (msTeams (l.drop (i + 1))) = 0 := List.count_eq_zero.mpr hB
      have e5 : List.count y [y] = 1 := by simp
      omega
    · have e5 : List.count y [t] = 0 := by simp [hyt]
      omega

theorem manualEditMentorSlot_preserves
    (s : ExamSchedule) (user : Nat) (r : EditSlotReq) (s' : ExamSchedule)
    (hids : (msSlotIds s.mentorSchedules).Nodup)
    (huni : (msTeams s.mentorSchedules).Nodup)
    (hcall : manualEditMentorSlot (some s) user r = (some s', .updated)) :
    (msTeams s'.mentorSchedules).Nodup ∧ s'.slots = s.slots := by
  unfold manualEditMentorSlot at hcall
  dsimp only at hcall
  cases hidx : s.mentorSchedules.findIdx? (fun ms => decide (ms.mentor = user)) with
  | none =>
    rw [hidx] at hcall
    exact absurd hcall (by simp)
  | some i =>
    rw [hidx] at hcall
    dsimp only at hcall
    obtain ⟨hi, -, -⟩ := List.findIdx?_eq_some_iff_getElem.mp hidx
    have hms : s.mentorSchedules.getD i default = s.mentorSchedules[i] :=
      List.getD_eq_getElem _ _ hi
    rw [hms] at hcall
    cases hjdx : s.mentorSchedules[i].slots.findIdx?
        (fun sl => decide (sl.sid = r.slotId)) with
    | none =>
      rw [hjdx] at hcall
      exact absurd hcall (by simp)
    | some j =>
      rw [hjdx] at hcall
      dsimp only at hcall
      obtain ⟨hj, hpj, -⟩ := List.findIdx?_eq_some_iff_getElem.mp hjdx
      have hsid : s.mentorSchedules[i].slots[j].sid = r.slotId := of_decide_eq_true hpj
      have hsl : s.mentorSchedules[i].slots.getD j default = s.mentorSchedules[i].slots[j] :=
        List.getD_eq_getElem _ _ hj
      rw [hsl] at hcall
      cases htid : r.teamId with
      | none =>
        rw [htid] at hcall
        dsimp only at hcall
        simp only [Bool.false_eq_true, if_false] at hcall
        simp only [Prod.mk.injEq, Option.some.injEq] at hcall
        obtain ⟨hX, -⟩ := hcall
        subst hX
        refine ⟨?_, rfl⟩
        exact set_slot_team_nodup _ i j hi hj _ huni (Or.inl (patchTimes_team _ _ _))
      | some tv =>
        rw [htid] at hcall
        dsimp only at hcall
        cases tv with
        | none =>
          simp only [Bool.false_eq_true, if_false] at hcall
          simp only [Prod.mk.injEq, Option.some.injEq] at hcall
          obtain ⟨hX, -⟩ := hcall
          subst hX
          refine ⟨?_, rfl⟩
          apply set_slot_team_nodup _ i j hi hj _ huni
          refine Or.inr (Or.inl ?_)
          rw [patchTimes_team]
        | some t =>
          dsimp only at hcall
          by_cases hc : teamConflict s.mentorSchedules r.slotId t = true
          · rw [if_pos hc] at hcall
            exact absurd hcall (by simp)
          · rw [Bool.not_eq_true] at hc
            rw [hc] at hcall
            simp only [Bool.false_eq_true, if_false] at hcall
            simp only [Prod.mk.injEq, Option.some.injEq] at hcall
            obtain ⟨hX, -⟩ := hcall
            subst hX
            refine ⟨?_, rfl⟩
            rw [msSlotIds_decomp _ i hi, map_sid_decomp _ j hj, hsid] at hids
            obtain ⟨nA, n1, n2, nB⟩ := nodup_middle_not_mem hids
            have hconf := teamConflict_false hc
            apply set_slot_team_nodup _ i j hi hj _ huni
            refine Or.inr (Or.inr ⟨t, ?_, ?_, ?_, ?_, ?_⟩)
            · rw [patchTimes_team]
            · intro hmem
              obtain ⟨msx, hmsx, slx, hslx, hteamx⟩ := mem_msTeams.mp hmem
              exact hconf msx (List.mem_of_mem_take hmsx) slx hslx
                (fun he => nA (he ▸ sid_mem_msSlotIds hmsx hslx)) hteamx
            · intro hmem
              obtain ⟨slx, hslx, hteamx⟩ := List.mem_filterMap.mp hmem
              exact hconf _ (List.getElem_mem hi) slx (List.mem_of_mem_take hslx)
                (fun he => n1 (he ▸ List.mem_map_of_mem MSlot.sid hslx)) hteamx
            · intro hmem
              obtain ⟨slx, hslx, hteamx⟩ := List.mem_filterMap.mp hmem
              exact hconf _ (List.getElem_mem hi) slx (List.mem_of_mem_drop hslx)
                (fun he => n2 (he ▸ List.mem_map_of_mem MSlot.sid hslx)) hteamx
            · intro hmem
              obtain ⟨msx, hmsx, slx, hslx, hteamx⟩ := mem_msTeams.mp hmem
              exact hconf msx (List.mem_of_mem_drop hmsx) slx hslx
                (fun he => nB (he ▸ sid_mem_msSlotIds hmsx hslx)) hteamx

/-- C1 counterexample: `c1Sched` satisfies global team-uniqueness with team 1
already assigned, yet manualAssignTeam of team 1 to a second slot succeeds and
the resulting schedule assigns team 1 twice — the uniqueness check is not
performed on manual assignment. -/
theorem c1_counterexample :
    teamUnique c1Sched ∧
    (manualAssignTeam (some c1Sched) c1Req).2 = .assigned ∧
    (manualAssignTeam (some c1Sched) c1Req).1.map allAssignedTeams = some [1, 1] ∧
    ¬ ([1, 1] : List Nat).Nodup := by
  refine ⟨?_, rfl, by rfl, by decide⟩
  show (allAssignedTeams c1Sched).Nodup
  decide

/-- C1 amended: after the bulk distribution no team id appears in two slots
(the teams being distinct database documents), and manualEditMentorSlot does
re-check global uniqueness across all mentor schedules — a successful edit
preserves the no-duplicate-team invariant (given distinct subdocument ids) and
leaves the legacy slots untouched; manualAssignTeam, however, performs no such
check (see the counterexample). -/
theorem c1_amended_uniqueness
    (s0 : ExamSchedule) (mentors teams : List Nat)
    (hm : mentors ≠ []) (ht : teams ≠ []) (hnd : teams.Nodup)
    (s : ExamSchedule) (user : Nat) (r : EditSlotReq) (s' : ExamSchedule)
    (hids : (msSlotIds s.mentorSchedules).Nodup)
    (huni : (msTeams s.mentorSchedules).Nodup)
    (hcall : manualEditMentorSlot (some s) user r = (some s', .updated)) :
    (∃ s1, randomDistributeTeams (some s0) mentors teams = (some s1, .distributed) ∧
      (slotTeams s1.slots).Nodup ∧ s1.mentorSchedules = s0.mentorSchedules) ∧
    (msTeams s'.mentorSchedules).Nodup ∧ s'.slots = s.slots := by
  constructor
  · have hm0 : ¬ mentors.length = 0 := fun h0 => hm (List.length_eq_zero.mp h0)
    have ht0 : ¬ teams.length = 0 := fun h0 => ht (List.length_eq_zero.mp h0)
    have heq : randomDistributeTeams (some s0) mentors teams =
        (some { s0 with
            slots := buildSlots mentors s0.duration teams 0 9 0 0,
            assignmentType := .random,
            schedStatus := .active }, .distributed) := by
      unfold randomDistributeTeams
      dsimp only
      rw [if_neg hm0, if_neg ht0]
    refine ⟨_, heq, ?_, rfl⟩
    show (slotTeams (buildSlots mentors s0.duration teams 0 9 0 0)).Nodup
    rw [buildSlots_filterMap_teams]
    exact hnd
  · exact manualEditMentorSlot_preserves s user r s' hids huni hcall

/-- Witness for c1_amended: the scenario-D distribution over distinct teams,
and a successful edit assigning an unassigned team to slot 22 of
`c1EditSched`. -/
theorem c1_amended_uniqueness_witness :
    (∃ s1, randomDistributeTeams (some c8Sched) [101, 102, 103] [1, 2, 3, 4, 5, 6, 7]
        = (some s1, .distributed) ∧
      (slotTeams s1.slots).Nodup ∧ s1.mentorSchedules = c8Sched.mentorSchedules) ∧
    (msTeams c1EditResult.mentorSchedules).Nodup ∧ c1EditResult.slots = c1EditSched.slots :=
  c1_amended_uniqueness c8Sched [101, 102, 103] [1, 2, 3, 4, 5, 6, 7]
    (by decide) (by decide) (by decide)
    c1EditSched 7 c1EditReq c1EditResult (by decide) (by decide) (by decide)

end EsdBackend
